import Mathlib

/-!
Verification development for the crash-game provider backend.

The definitions below are a shallow embedding of the backend sources:
the round engine (backend/engine/crashEngine.js), the platform callback
client (backend/services/callbackService.js) and the bet/cashout
settlement layer (backend/services/betService.js).

Numbers that the JavaScript source manipulates as IEEE doubles are
modelled as exact rationals; the formulas of the spec are themselves
stated in exact arithmetic, so the rational model is the faithful
reading of both. The SHA-256 and HMAC-SHA256 primitives live in
backend/util/hmac.js, which is not part of the sources under
verification; they are taken as abstract function parameters, since
every statement proved here only uses them as opaque maps.
-/

namespace Crash

-- Game configuration constants, from backend/config.js.
namespace config

def TICK_INTERVAL_MS : Nat := 50
def BETTING_PHASE_MS : Nat := 5000
def MIN_BET : ℚ := 1
def MAX_BET : ℚ := 100000000000
def MAX_MULTIPLIER : ℚ := 1000
def TIMEOUT_MS : Nat := 10000
def RETRY_ATTEMPTS : Nat := 3
def RETRY_DELAY_MS : Nat := 1000

end config

/-- Round lifecycle status, from the status field of crashEngine.js. -/
inductive RoundStatus where
  | pending
  | betting
  | running
  | crashed
deriving DecidableEq, Repr

/-- A bet registered in the engine (crashEngine.addBet). -/
structure Bet where
  playerId : String
  sessionId : String
  amount : ℚ
  placedAt : Nat
deriving DecidableEq, Repr

/-- A cashout recorded in the engine (crashEngine.cashout). -/
structure CashoutData where
  playerId : String
  betAmount : ℚ
  multiplier : ℚ
  winAmount : ℚ
  cashedOutAt : Nat
deriving DecidableEq, Repr

/-- An entry of roundHistory, pushed by crashEngine.crash. -/
structure HistoryEntry where
  id : String
  crashPoint : ℚ
  serverSeed : String
  serverSeedHash : String
  clientSeed : String
  nonce : Nat
  startTime : Option Nat
  endTime : Option Nat
deriving DecidableEq, Repr

/-- The live round object of crashEngine.js. The bets and cashedOut
JavaScript Maps are modelled as association lists in insertion order. -/
structure Round where
  id : String
  serverSeed : String
  serverSeedHash : String
  clientSeed : String
  nonce : Nat
  crashPoint : ℚ
  startTime : Option Nat
  endTime : Option Nat
  status : RoundStatus
  currentMultiplier : ℚ
  bets : List (String × Bet)
  cashedOut : List (String × CashoutData)
deriving DecidableEq, Repr

/-- The mutable state of the CrashEngine singleton (the event-listener
map is presentation plumbing and is not modelled). -/
structure EngineState where
  currentRound : Option Round
  roundHistory : List HistoryEntry
deriving DecidableEq, Repr

/-- Engine state right after construction: no round, empty history. -/
def initialState : EngineState :=
  { currentRound := none, roundHistory := [] }

/-- Lookup in an association-list map, mirroring JavaScript Map.get. -/
def mapGet {α : Type} (m : List (String × α)) (k : String) : Option α :=
  (m.find? (fun p => p.fst = k)).map Prod.snd

/-- Membership test mirroring JavaScript Map.has. -/
def mapHas {α : Type} (m : List (String × α)) (k : String) : Bool :=
  (mapGet m k).isSome

/-- Update-or-append mirroring JavaScript Map.set (insertion order kept). -/
def mapSet {α : Type} (m : List (String × α)) (k : String) (v : α) :
    List (String × α) :=
  if mapHas m k then
    m.map (fun p => if p.fst = k then (k, v) else p)
  else
    m ++ [(k, v)]

/-- Number of entries stored under a key. -/
def keyCount {α : Type} (m : List (String × α)) (k : String) : Nat :=
  (m.filter (fun p => p.fst = k)).length

/-- Crash point formula of CrashEngine.calculateCrashPoint. The abstract
parameter hmac48 stands for reading the first 6 bytes (48 bits) of
HMAC-SHA256(serverSeed, message) as a big-endian unsigned integer, the
part computed by hash.readUIntBE(0, 6) over backend/util/hmac.js. -/
def calculateCrashPoint (hmac48 : String → String → Nat)
    (serverSeed clientSeed : String) (nonce : Nat) : ℚ :=
  let message := clientSeed ++ ":" ++ toString nonce
  let h := hmac48 serverSeed message
  let raw : ℚ := (h : ℚ) / 2 ^ 48
  if raw < 1 / 100 then
    1
  else
    min (((⌊(99 : ℚ) / 100 / (1 - raw) * 100⌋ : ℤ) : ℚ) / 100) config.MAX_MULTIPLIER

/-- Modelled from the spec: crash point as a function of the raw value
in [0,1), exactly as section 4.2 words it. If raw < 0.01 the crash
point is exactly 1.00, otherwise floor((0.99 / (1 - raw)) x 100) / 100
capped at the configured safety ceiling. -/
def specCrashPointOfRaw (raw : ℚ) : ℚ :=
  if raw < 1 / 100 then
    1
  else
    min (((⌊(99 : ℚ) / 100 / (1 - raw) * 100⌋ : ℤ) : ℚ) / 100) config.MAX_MULTIPLIER

example : specCrashPointOfRaw (1 / 200) = 1 := by
  norm_num [specCrashPointOfRaw]

/-- Multiplier growth of CrashEngine.calculateMultiplier:
floor(e^(0.00006 x elapsedMs) x 100) / 100. The exponential of the
source (Math.pow(Math.E, growthRate * elapsedMs)) is modelled by the
real exponential, hence this definition lives over the reals and is
not executable. -/
noncomputable def calculateMultiplier (elapsedMs : Nat) : ℚ :=
  ((⌊Real.exp ((6 / 100000 : ℝ) * (elapsedMs : ℝ)) * 100⌋ : ℤ) : ℚ) / 100

/-- Generate a new round (CrashEngine.generateRound). The seed material
is read from the seed manager in the source (backend/engine/seeds.js,
not among the verified sources), so serverSeed, clientSeed and nonce
are taken as inputs here; sha256 abstracts the SHA-256 of
backend/util/hmac.js and now stands for Date.now(). -/
def generateRound (sha256 : String → String)
    (hmac48 : String → String → Nat)
    (serverSeed clientSeed : String) (nonce : Nat) (now : Nat)
    (s : EngineState) : Round × EngineState :=
  let crashPoint := calculateCrashPoint hmac48 serverSeed clientSeed nonce
  let round : Round :=
    { id := "R-" ++ toString now ++ "-" ++ toString nonce
      serverSeed := serverSeed
      serverSeedHash := sha256 serverSeed
      clientSeed := clientSeed
      nonce := nonce
      crashPoint := crashPoint
      startTime := none
      endTime := none
      status := RoundStatus.pending
      currentMultiplier := 1
      bets := []
      cashedOut := [] }
  (round, { s with currentRound := some round })

/-- Start the betting phase (CrashEngine.startBettingPhase): generate a
round first when none exists, then set the status to betting. -/
def startBettingPhase (sha256 : String → String)
    (hmac48 : String → String → Nat)
    (serverSeed clientSeed : String) (nonce : Nat) (now : Nat)
    (s : EngineState) : EngineState :=
  let s :=
    if s.currentRound = none then
      (generateRound sha256 hmac48 serverSeed clientSeed nonce now s).snd
    else s
  match s.currentRound with
  | none => s
  | some r => { s with currentRound := some ({ r with status := RoundStatus.betting }) }

/-- Start the round (CrashEngine.startRound): only legal from the
betting status; resets currentMultiplier to 1.00 and records the start
time. On a thrown error the state is returned unchanged. -/
def startRound (now : Nat) (s : EngineState) :
    Except String Round × EngineState :=
  match s.currentRound with
  | none => (Except.error "No round in betting phase", s)
  | some r =>
    if r.status = RoundStatus.betting then
      let r' := { r with
        status := RoundStatus.running
        startTime := some now
        currentMultiplier := 1 }
      (Except.ok r', { s with currentRound := some r' })
    else
      (Except.error "No round in betting phase", s)

/-- A loser entry of the crash result: a bet with no matching cashout. -/
structure LoserEntry where
  playerId : String
  bet : Bet
deriving DecidableEq, Repr

/-- Verification data emitted by the crash transition. -/
structure VerificationData where
  roundId : String
  crashPoint : ℚ
  serverSeed : String
  serverSeedHash : String
  clientSeed : String
  nonce : Nat
deriving DecidableEq, Repr

/-- Result of the crash transition (CrashEngine.crash). -/
structure CrashResult where
  round : Round
  losers : List LoserEntry
  verification : VerificationData
deriving DecidableEq, Repr

/-- Finalized round written by CrashEngine.crash: status crashed, the
end time recorded, and the current multiplier set to exactly the crash
point (never an overshoot value). -/
def finalizedRound (r : Round) (now : Nat) : Round :=
  { r with
    status := RoundStatus.crashed
    endTime := some now
    currentMultiplier := r.crashPoint }

/-- Verification data revealed by CrashEngine.crash: fields copied from
the crashing round itself. -/
def verificationOf (r : Round) : VerificationData :=
  { roundId := r.id
    crashPoint := r.crashPoint
    serverSeed := r.serverSeed
    serverSeedHash := r.serverSeedHash
    clientSeed := r.clientSeed
    nonce := r.nonce }

/-- History entry archived by CrashEngine.crash. -/
def historyEntryOf (r : Round) : HistoryEntry :=
  { id := r.id
    crashPoint := r.crashPoint
    serverSeed := r.serverSeed
    serverSeedHash := r.serverSeedHash
    clientSeed := r.clientSeed
    nonce := r.nonce
    startTime := r.startTime
    endTime := r.endTime }

/-- Unshift with the 50-entry cap of CrashEngine.crash. -/
def historyPush (e : HistoryEntry) (h : List HistoryEntry) :
    List HistoryEntry :=
  let h' := e :: h
  if h'.length > 50 then h'.dropLast else h'

/-- Losers computed by CrashEngine.crash: the bets of the round with no
matching cashout, in bet-insertion order. -/
def losersOf (r : Round) : List LoserEntry :=
  (r.bets.filter (fun p => ! mapHas r.cashedOut p.fst)).map
    (fun p => { playerId := p.fst, bet := p.snd })

/-- Crash the round (CrashEngine.crash): finalizes the round at
exactly its crash point, archives it in roundHistory (capped at 50
entries), computes the losers as the bets without a cashout and clears
currentRound. Seed-chain advancement is a seed-manager effect outside
the engine state. -/
def crash (now : Nat) (s : EngineState) :
    Option CrashResult × EngineState :=
  match s.currentRound with
  | none => (none, s)
  | some r =>
    let r' := finalizedRound r now
    (some ({ round := r', losers := losersOf r', verification := verificationOf r' }),
      { currentRound := none
        roundHistory := historyPush (historyEntryOf r') s.roundHistory })

/-- Outcome of a tick: either a multiplier broadcast or a crash. -/
inductive TickResult where
  | tick (multiplier : ℚ)
  | crashed (result : CrashResult)
deriving DecidableEq, Repr

/-- Advance the multiplier and check for the crash threshold
(CrashEngine.tick). Returns none when no round is running. A missing
startTime is defaulted to 0; in every reachable running round the
start time has been set by startRound. -/
noncomputable def tick (now : Nat) (s : EngineState) :
    Option TickResult × EngineState :=
  match s.currentRound with
  | none => (none, s)
  | some r =>
    if r.status = RoundStatus.running then
      let elapsed := now - r.startTime.getD 0
      let newMultiplier := calculateMultiplier elapsed
      let r' := { r with currentMultiplier := newMultiplier }
      let s' := { s with currentRound := some r' }
      if r.crashPoint ≤ newMultiplier then
        let (cr, s'') := crash now s'
        (cr.map TickResult.crashed, s'')
      else
        (some (TickResult.tick newMultiplier), s')
    else
      (none, s)

/-- Add a bet to the current round (CrashEngine.addBet); now stands for
Date.now() recorded in placedAt. On a thrown error the state is
returned unchanged. -/
def addBet (playerId : String) (amount : ℚ) (sessionId : String)
    (now : Nat) (s : EngineState) : Except String Bet × EngineState :=
  match s.currentRound with
  | none => (Except.error "No active round", s)
  | some r =>
    if r.status ≠ RoundStatus.betting then
      (Except.error "Betting phase has ended", s)
    else if mapHas r.bets playerId then
      (Except.error "Already placed a bet this round", s)
    else
      let bet : Bet :=
        { playerId := playerId, sessionId := sessionId
          amount := amount, placedAt := now }
      (Except.ok bet,
        { s with currentRound := some ({ r with bets := mapSet r.bets playerId bet }) })

/-- Process a cashout (CrashEngine.cashout). On a thrown error the
state is returned unchanged. -/
def cashout (playerId : String) (now : Nat) (s : EngineState) :
    Except String CashoutData × EngineState :=
  match s.currentRound with
  | none => (Except.error "No active round", s)
  | some r =>
    if r.status ≠ RoundStatus.running then
      (Except.error "Round is not running", s)
    else
      match mapGet r.bets playerId with
      | none => (Except.error "No bet found for player", s)
      | some bet =>
        if mapHas r.cashedOut playerId then
          (Except.error "Already cashed out", s)
        else
          let multiplier := r.currentMultiplier
          let winAmount : ℚ := ((⌊bet.amount * multiplier * 100⌋ : ℤ) : ℚ) / 100
          let data : CashoutData :=
            { playerId := playerId
              betAmount := bet.amount
              multiplier := multiplier
              winAmount := winAmount
              cashedOutAt := now }
          let r' := { r with cashedOut := mapSet r.cashedOut playerId data }
          (Except.ok data, { s with currentRound := some r' })

/-- Read-only snapshot returned by CrashEngine.getCurrentRound. -/
structure RoundSnapshot where
  id : String
  status : RoundStatus
  currentMultiplier : ℚ
  serverSeedHash : String
  clientSeed : String
  nonce : Nat
  betsCount : Nat
  startTime : Option Nat
deriving DecidableEq, Repr

/-- Snapshot of the current round (CrashEngine.getCurrentRound). -/
def getCurrentRound (s : EngineState) : Option RoundSnapshot :=
  s.currentRound.map (fun r =>
    { id := r.id
      status := r.status
      currentMultiplier := r.currentMultiplier
      serverSeedHash := r.serverSeedHash
      clientSeed := r.clientSeed
      nonce := r.nonce
      betsCount := r.bets.length
      startTime := r.startTime })

/-- Bet of a player in the current round (CrashEngine.getPlayerBet). -/
def getPlayerBet (playerId : String) (s : EngineState) : Option Bet :=
  match s.currentRound with
  | none => none
  | some r => mapGet r.bets playerId

/-- Whether a player has cashed out (CrashEngine.hasPlayerCashedOut). -/
def hasPlayerCashedOut (playerId : String) (s : EngineState) : Bool :=
  match s.currentRound with
  | none => false
  | some r => mapHas r.cashedOut playerId

/-- One engine invocation, used to quantify over arbitrary sequences of
engine operations. Each constructor carries the wall-clock and seed
inputs that the corresponding source method reads from its
environment. -/
inductive Op where
  | generate (serverSeed clientSeed : String) (nonce now : Nat)
  | startBetting (serverSeed clientSeed : String) (nonce now : Nat)
  | start (now : Nat)
  | tickAt (now : Nat)
  | addBetOp (playerId : String) (amount : ℚ) (sessionId : String) (now : Nat)
  | cashoutOp (playerId : String) (now : Nat)
deriving Repr

/-- State reached after one engine operation (results discarded). -/
noncomputable def applyOp (sha256 : String → String)
    (hmac48 : String → String → Nat) (s : EngineState) : Op → EngineState
  | Op.generate ss cs nonce now => (generateRound sha256 hmac48 ss cs nonce now s).snd
  | Op.startBetting ss cs nonce now => startBettingPhase sha256 hmac48 ss cs nonce now s
  | Op.start now => (startRound now s).snd
  | Op.tickAt now => (tick now s).snd
  | Op.addBetOp pid amount sid now => (addBet pid amount sid now s).snd
  | Op.cashoutOp pid now => (cashout pid now s).snd

/-- State after a sequence of engine operations. -/
noncomputable def runOps (sha256 : String → String)
    (hmac48 : String → String → Nat) (s : EngineState) (ops : List Op) :
    EngineState :=
  ops.foldl (applyOp sha256 hmac48) s

/-- Operations that can run during the lifetime of one round, between
the betting phase opening and the crash: everything except the two
round-installing calls (generateRound, and startBettingPhase, which
generates a fresh round when none is live). The round scheduler invokes
those two only when it sets a new round up. -/
def midRoundOp : Op → Prop
  | Op.generate _ _ _ _ => False
  | Op.startBetting _ _ _ _ => False
  | Op.start _ => True
  | Op.tickAt _ => True
  | Op.addBetOp _ _ _ _ => True
  | Op.cashoutOp _ _ => True

/-- JSON body of a platform response, as consumed by callbackService.
Absent JSON fields are none. -/
structure PlatformResponse where
  status : Option String
  transactionId : Option String
  newBalance : Option ℚ
  code : Option String
  message : Option String
deriving DecidableEq, Repr

/-- Outcome of one HTTP attempt against the platform: a 2xx response
with a parsed body, a non-2xx response, or a transport failure (which
includes a hit of the per-attempt AbortSignal timeout). -/
inductive AttemptOutcome where
  | ok (resp : PlatformResponse)
  | httpError (statusCode : Nat) (msg : String)
  | netError (msg : String)
deriving DecidableEq, Repr

/-- Error text thrown inside makeRequest for a failed attempt. -/
def attemptError : AttemptOutcome → Option String
  | AttemptOutcome.ok _ => none
  | AttemptOutcome.httpError st m => some ("HTTP " ++ toString st ++ ": " ++ m)
  | AttemptOutcome.netError m => some m

/-- Trace of one logical call of CallbackService.makeRequest: the final
result, the request of every attempt actually sent (payload plus the
per-attempt timeout) and the backoff delays slept between attempts. -/
structure RequestTrace (α : Type) where
  result : Except String PlatformResponse
  sent : List (α × Nat)
  delays : List Nat
deriving Repr

/-- CallbackService.makeRequest: sends the same payload on every
attempt, with AbortSignal.timeout(TIMEOUT_MS) per attempt; on an error
it retries while attempt < RETRY_ATTEMPTS, sleeping
RETRY_DELAY_MS x attempt before the next attempt, and rethrows the
last error otherwise. The environment is the list of per-attempt
outcomes; an exhausted outcome list means no response was observed. -/
def makeRequest {α : Type} (payload : α) :
    List AttemptOutcome → Nat → RequestTrace α
  | [], _ => { result := Except.error "no response", sent := [], delays := [] }
  | AttemptOutcome.ok resp :: _, _ =>
    { result := Except.ok resp
      sent := [(payload, config.TIMEOUT_MS)]
      delays := [] }
  | o :: rest, attempt =>
    let err := (attemptError o).getD ""
    if attempt < config.RETRY_ATTEMPTS then
      let r := makeRequest payload rest (attempt + 1)
      { result := r.result
        sent := (payload, config.TIMEOUT_MS) :: r.sent
        delays := config.RETRY_DELAY_MS * attempt :: r.delays }
    else
      { result := Except.error err
        sent := [(payload, config.TIMEOUT_MS)]
        delays := [] }

/-- Payload of the bet callback (CallbackService.placeBet). -/
structure BetPayload where
  requestId : String
  roundId : String
  playerId : String
  sessionId : String
  amount : ℚ
  currency : String
  timestamp : Nat
deriving DecidableEq, Repr

/-- Result shape returned by the callback wrappers of
callbackService.js: a success carries the platform transaction id and
the new balance, a failure the in-band or transport error. -/
inductive CallbackResult where
  | success (transactionId : String) (newBalance : Option ℚ) (requestId : String)
  | failure (code message : Option String) (requestId : String)
deriving DecidableEq, Repr

/-- CallbackService.placeBet: builds the requestId and payload once,
runs makeRequest, and interprets the response: a body carrying a
transactionId is a success, a 2xx body without one is an in-band
rejection returned as-is, and a thrown error becomes the
CALLBACK_FAILED failure. Also returns the request trace. The payload
construction is split off so the settlement layer can name the exact
request it caused. -/
def betPayloadOf (roundId playerId sessionId : String) (amount : ℚ)
    (currency : String) (now : Nat) : BetPayload :=
  { requestId := "BET-" ++ roundId ++ "-" ++ playerId ++ "-" ++ toString now
    roundId := roundId
    playerId := playerId
    sessionId := sessionId
    amount := amount
    currency := currency
    timestamp := now }

def callbackPlaceBet (roundId playerId sessionId : String) (amount : ℚ)
    (currency : String) (now : Nat) (outcomes : List AttemptOutcome) :
    CallbackResult × RequestTrace BetPayload :=
  let requestId := "BET-" ++ roundId ++ "-" ++ playerId ++ "-" ++ toString now
  let payload := betPayloadOf roundId playerId sessionId amount currency now
  let trace := makeRequest payload outcomes 1
  match trace.result with
  | Except.ok resp =>
    match resp.transactionId with
    | some tx => (CallbackResult.success tx resp.newBalance requestId, trace)
    | none => (CallbackResult.failure resp.code resp.message requestId, trace)
  | Except.error msg =>
    (CallbackResult.failure (some "CALLBACK_FAILED") (some msg) requestId, trace)

/-- Rounding of the bet amount to 2 decimals in BetService.placeBet
(Math.round(amount * 100) / 100; JavaScript rounds half toward
positive infinity, which is floor(x + 1/2)). -/
def roundTo2 (a : ℚ) : ℚ :=
  ((⌊a * 100 + 1 / 2⌋ : ℤ) : ℚ) / 100

/-- JavaScript a || b || d over possibly-absent strings. -/
def jsOr (a b : Option String) (d : String) : String :=
  a.getD (b.getD d)

/-- Payload of the win callback (CallbackService.creditWin). -/
structure WinPayload where
  requestId : String
  roundId : String
  playerId : String
  sessionId : String
  betAmount : ℚ
  multiplier : ℚ
  winAmount : ℚ
  currency : String
  betTransactionId : String
  timestamp : Nat
deriving DecidableEq, Repr

/-- Payload of the win callback of CallbackService.creditWin. -/
def winPayloadOf (roundId playerId sessionId : String)
    (betAmount multiplier winAmount : ℚ) (currency : String)
    (betTransactionId : String) (now : Nat) : WinPayload :=
  { requestId := "WIN-" ++ roundId ++ "-" ++ playerId ++ "-" ++ toString now
    roundId := roundId
    playerId := playerId
    sessionId := sessionId
    betAmount := betAmount
    multiplier := multiplier
    winAmount := winAmount
    currency := currency
    betTransactionId := betTransactionId
    timestamp := now }

/-- CallbackService.creditWin, interpreted exactly like the bet
callback: a transactionId in the body means success. -/
def callbackCreditWin (roundId playerId sessionId : String)
    (betAmount multiplier winAmount : ℚ) (currency : String)
    (betTransactionId : String) (now : Nat)
    (outcomes : List AttemptOutcome) :
    CallbackResult × RequestTrace WinPayload :=
  let requestId := "WIN-" ++ roundId ++ "-" ++ playerId ++ "-" ++ toString now
  let payload := winPayloadOf roundId playerId sessionId betAmount multiplier
    winAmount currency betTransactionId now
  let trace := makeRequest payload outcomes 1
  match trace.result with
  | Except.ok resp =>
    match resp.transactionId with
    | some tx => (CallbackResult.success tx resp.newBalance requestId, trace)
    | none => (CallbackResult.failure resp.code resp.message requestId, trace)
  | Except.error msg =>
    (CallbackResult.failure (some "CALLBACK_FAILED") (some msg) requestId, trace)

/-- Entry of the activeBets map of betService.js. -/
structure ActiveBet where
  bet : Bet
  transactionId : String
  roundId : String
  callbackBaseUrl : String
  currency : String
deriving DecidableEq, Repr

/-- Payload of a compensating rollback call (CallbackService.rollback);
the requestId is generated inside the callback service. -/
structure RollbackPayload where
  roundId : String
  playerId : String
  sessionId : String
  amount : ℚ
  currency : String
  originalTransactionId : String
  reason : String
deriving DecidableEq, Repr

/-- Successful return value of BetService.placeBet. -/
structure PlaceBetSuccess where
  amount : ℚ
  roundId : String
  transactionId : String
  newBalance : Option ℚ
deriving DecidableEq, Repr

/-- Observable outcome of one BetService.placeBet call: the returned or
thrown result, the engine and activeBets afterwards, whether the debit
callback was reached, and every compensating rollback issued. -/
structure PlaceBetOut where
  result : Except String PlaceBetSuccess
  engine : EngineState
  activeBets : List (String × ActiveBet)
  debitCalled : Bool
  rollbackCalls : List RollbackPayload
deriving Repr

/-- BetService.placeBet. The session has already been resolved to
(playerId, currency, callbackBaseUrl) — sessionService is outside the
verified sources. e1 is the engine state read by the validations; the
debit callback suspends, so the engine state at registration time is a
separate argument e2 (on the single-threaded timeline without
interference, e2 = e1 holds). outcomes drives the debit attempts. -/
def placeBetService (playerId sessionId currency callbackBaseUrl : String)
    (amount : ℚ) (e1 : EngineState) (ab : List (String × ActiveBet))
    (outcomes : List AttemptOutcome) (now : Nat) (e2 : EngineState) :
    PlaceBetOut :=
  if amount < config.MIN_BET then
    { result := Except.error "Minimum bet is 1", engine := e1
      activeBets := ab, debitCalled := false, rollbackCalls := [] }
  else if amount > config.MAX_BET then
    { result := Except.error "Maximum bet is 100000000000", engine := e1
      activeBets := ab, debitCalled := false, rollbackCalls := [] }
  else if (getPlayerBet playerId e1).isSome then
    { result := Except.error "Already placed a bet this round", engine := e1
      activeBets := ab, debitCalled := false, rollbackCalls := [] }
  else
    match getCurrentRound e1 with
    | none =>
      { result := Except.error "No active round", engine := e1
        activeBets := ab, debitCalled := false, rollbackCalls := [] }
    | some round =>
      if round.status ≠ RoundStatus.betting then
        { result := Except.error "Betting phase has ended", engine := e1
          activeBets := ab, debitCalled := false, rollbackCalls := [] }
      else
        let roundedAmount := roundTo2 amount
        let debit := (callbackPlaceBet round.id playerId sessionId
          roundedAmount currency now outcomes).fst
        match debit with
        | CallbackResult.failure code message _ =>
          { result := Except.error (jsOr message code "Bet rejected by platform")
            engine := e2, activeBets := ab
            debitCalled := true, rollbackCalls := [] }
        | CallbackResult.success transactionId newBalance _ =>
          match addBet playerId roundedAmount sessionId now e2 with
          | (Except.ok bet, e3) =>
            let entry : ActiveBet :=
              { bet := bet, transactionId := transactionId
                roundId := round.id, callbackBaseUrl := callbackBaseUrl
                currency := currency }
            { result := Except.ok
                { amount := roundedAmount, roundId := round.id
                  transactionId := transactionId, newBalance := newBalance }
              engine := e3
              activeBets := mapSet ab playerId entry
              debitCalled := true, rollbackCalls := [] }
          | (Except.error err, e3) =>
            { result := Except.error err
              engine := e3, activeBets := ab
              debitCalled := true
              rollbackCalls :=
                [{ roundId := round.id, playerId := playerId
                   sessionId := sessionId, amount := roundedAmount
                   currency := currency
                   originalTransactionId := transactionId
                   reason := "REGISTRATION_FAILED" }] }

/-- Return value of BetService.processCashout: a fully settled cashout,
or the partial success reported when the credit callback failed after
the engine already locked in the cashout. -/
inductive CashoutReturn where
  | settled (betAmount multiplier winAmount : ℚ) (roundId : String)
      (transactionId : String) (newBalance : Option ℚ)
  | unsettled (error : Option String)
      (betAmount multiplier winAmount : ℚ) (roundId : String)
deriving DecidableEq, Repr

/-- Observable outcome of one BetService.processCashout call. -/
structure CashoutOut where
  result : Except String CashoutReturn
  engine : EngineState
  activeBets : List (String × ActiveBet)
  creditCalls : List WinPayload
deriving Repr

/-- BetService.processCashout: validates against the activeBets map and
the engine, locks the cashout in the engine first, then runs the win
callback; a callback failure is reported as the unsettled partial
success and reverses nothing. -/
def processCashout (playerId sessionId currency : String)
    (ab : List (String × ActiveBet)) (e : EngineState)
    (outcomes : List AttemptOutcome) (now : Nat) : CashoutOut :=
  match mapGet ab playerId with
  | none =>
    { result := Except.error "No active bet found", engine := e
      activeBets := ab, creditCalls := [] }
  | some activeBet =>
    if hasPlayerCashedOut playerId e then
      { result := Except.error "Already cashed out", engine := e
        activeBets := ab, creditCalls := [] }
    else
      match getCurrentRound e with
      | none =>
        { result := Except.error "Round is not running", engine := e
          activeBets := ab, creditCalls := [] }
      | some round =>
        if round.status ≠ RoundStatus.running then
          { result := Except.error "Round is not running", engine := e
            activeBets := ab, creditCalls := [] }
        else
          match cashout playerId now e with
          | (Except.error err, e') =>
            { result := Except.error err, engine := e'
              activeBets := ab, creditCalls := [] }
          | (Except.ok cashoutData, e') =>
            let payload := winPayloadOf round.id playerId sessionId
              cashoutData.betAmount cashoutData.multiplier
              cashoutData.winAmount currency activeBet.transactionId now
            let credit := (callbackCreditWin round.id playerId sessionId
              cashoutData.betAmount cashoutData.multiplier
              cashoutData.winAmount currency activeBet.transactionId now
              outcomes).fst
            match credit with
            | CallbackResult.failure code message _ =>
              { result := Except.ok (CashoutReturn.unsettled
                  (message.orElse (fun _ => code))
                  cashoutData.betAmount cashoutData.multiplier
                  cashoutData.winAmount round.id)
                engine := e', activeBets := ab
                creditCalls := [payload] }
            | CallbackResult.success transactionId newBalance _ =>
              { result := Except.ok (CashoutReturn.settled
                  cashoutData.betAmount cashoutData.multiplier
                  cashoutData.winAmount round.id transactionId newBalance)
                engine := e'
                activeBets := ab.eraseP (fun p => p.fst = playerId)
                creditCalls := [payload] }

/-- Round fixture used to instantiate the theorems below on concrete
states. -/
def mkRound (status : RoundStatus) (crashPoint currentMultiplier : ℚ)
    (bets : List (String × Bet)) (cashedOut : List (String × CashoutData)) :
    Round :=
  { id := "R-1-1"
    serverSeed := "seed"
    serverSeedHash := "hash"
    clientSeed := "client"
    nonce := 1
    crashPoint := crashPoint
    startTime := some 0
    endTime := none
    status := status
    currentMultiplier := currentMultiplier
    bets := bets
    cashedOut := cashedOut }

/-- Bet fixture. -/
def pBet : Bet :=
  { playerId := "p", sessionId := "sess", amount := 10, placedAt := 0 }

/-- Engine-state fixture around a single round. -/
def mkState (r : Round) : EngineState :=
  { currentRound := some r, roundHistory := [] }

/-- Betting-phase fixture state holding one bet. -/
def bState : EngineState :=
  mkState (mkRound RoundStatus.betting 2 1 [("p", pBet)] [])

/-- Active-bet fixture of the settlement layer. -/
def wActive : ActiveBet :=
  { bet := pBet, transactionId := "TXN-1", roundId := "R-1-1"
    callbackBaseUrl := "https://platform/cb", currency := "EUR" }

/-- Fixture chain for a running round ticked at 0 ms, 1 ms and 20000 ms:
round with crash point 2.00. -/
def wRound : Round := mkRound RoundStatus.running 2 1 [("p", pBet)] []

def wState : EngineState := mkState wRound

def wRound1 : Round := { wRound with currentMultiplier := 1 }

def wState1 : EngineState := { wState with currentRound := some wRound1 }

def wRound2 : Round := { wRound1 with currentMultiplier := 1 }

def wState2 : EngineState := { wState1 with currentRound := some wRound2 }

def wCrash : CrashResult :=
  { round := finalizedRound wRound2 20000
    losers := losersOf wRound2
    verification := verificationOf wRound2 }

def wState3 : EngineState :=
  { currentRound := none
    roundHistory := historyPush (historyEntryOf (finalizedRound wRound2 20000))
      wState2.roundHistory }

/-- Scenario D fixtures: a running round at multiplier 2.47x holding a
10.00 stake. -/
def uRound : Round := mkRound RoundStatus.running 5 (247 / 100) [("p", pBet)] []

def uState : EngineState := mkState uRound

def dCash : CashoutData :=
  { playerId := "p", betAmount := 10, multiplier := 247 / 100
    winAmount := 247 / 10, cashedOutAt := 9 }

/-- Commitment fixture, step 1: the round generated from serverSeed
"sA" at t = 5 with the all-zero hmac (its crash point is exactly
1.00). -/
def cGen : Round :=
  (generateRound (fun x => "H:" ++ x) (fun _ _ => 0) "sA" "c" 1 5
    initialState).fst

/-- Commitment fixture, step 2: the same round once betting opened. -/
def cBet : Round := { cGen with status := RoundStatus.betting }

/-- Commitment fixture, step 3: the same round running from t = 7. -/
def cRun : Round :=
  { cBet with
    status := RoundStatus.running
    startTime := some 7
    currentMultiplier := 1 }

/-- Commitment fixture: the engine state along the real scheduler
lifecycle — generateRound, then startBettingPhase, then the mid-round
operation startRound at t = 7 — right before the crashing tick. -/
noncomputable def cTrace : EngineState :=
  runOps (fun x => "H:" ++ x) (fun _ _ => 0)
    (startBettingPhase (fun x => "H:" ++ x) (fun _ _ => 0) "sB" "c" 2 6
      (generateRound (fun x => "H:" ++ x) (fun _ _ => 0) "sA" "c" 1 5
        initialState).snd)
    [Op.start 7]

/-- Commitment fixture: the crash result revealed by the tick at t = 7
(crash point 1.00 is reached immediately). -/
def cCr : CrashResult :=
  { round := finalizedRound cRun 7
    losers := losersOf cRun
    verification := verificationOf cRun }

/-- Commitment fixture: the engine state left behind by that crash. -/
def cS3 : EngineState :=
  { currentRound := none
    roundHistory := historyPush (historyEntryOf (finalizedRound cRun 7)) [] }

/-- Verification predicate for the commitment-reveal contract: the
published serverSeedHash of the live round and of every archived round
is the hash of its serverSeed. -/
def hashInv (sha256 : String → String) (s : EngineState) : Prop :=
  (∀ r, s.currentRound = some r → r.serverSeedHash = sha256 r.serverSeed) ∧
  (∀ e, e ∈ s.roundHistory → e.serverSeedHash = sha256 e.serverSeed)

/-!
Helper lemmas about the multiplier curve and the engine operations.
-/

lemma exp_le_one_div_one_sub {x : ℝ} (hx : x < 1) :
    Real.exp x ≤ 1 / (1 - x) := by
  have hpos : 0 < 1 - x := by linarith
  have h := Real.add_one_le_exp (-x)
  rw [Real.exp_neg] at h
  rw [le_div_iff₀ hpos]
  have hinv : 0 < Real.exp x := Real.exp_pos x
  calc Real.exp x * (1 - x) ≤ Real.exp x * (Real.exp x)⁻¹ := by
        apply mul_le_mul_of_nonneg_left _ (le_of_lt hinv)
        linarith
    _ = 1 := by field_simp

lemma calculateMultiplier_zero : calculateMultiplier 0 = 1 := by
  simp [calculateMultiplier, Real.exp_zero]

lemma calculateMultiplier_one : calculateMultiplier 1 = 1 := by
  have hlow : (100 : ℝ) ≤ Real.exp ((6 / 100000 : ℝ) * ((1 : Nat) : ℝ)) * 100 := by
    have h := Real.add_one_le_exp ((6 / 100000 : ℝ) * ((1 : Nat) : ℝ))
    push_cast at h ⊢
    nlinarith
  have hhigh : Real.exp ((6 / 100000 : ℝ) * ((1 : Nat) : ℝ)) * 100 < 101 := by
    have h := exp_le_one_div_one_sub (x := (6 : ℝ) / 100000 * ((1 : Nat) : ℝ))
      (by push_cast; norm_num)
    push_cast at h
    push_cast
    nlinarith
  have hfloor : (⌊Real.exp ((6 / 100000 : ℝ) * ((1 : Nat) : ℝ)) * 100⌋ : ℤ) = 100 := by
    rw [Int.floor_eq_iff]
    constructor
    · exact_mod_cast hlow
    · push_cast
      linarith
  rw [calculateMultiplier, hfloor]
  norm_num

lemma one_le_calculateMultiplier (t : Nat) : 1 ≤ calculateMultiplier t := by
  have hlow : (100 : ℝ) ≤ Real.exp ((6 / 100000 : ℝ) * (t : ℝ)) * 100 := by
    have h := Real.add_one_le_exp ((6 / 100000 : ℝ) * (t : ℝ))
    have ht : (0 : ℝ) ≤ (t : ℝ) := Nat.cast_nonneg t
    nlinarith
  have hfloor : (100 : ℤ) ≤ ⌊Real.exp ((6 / 100000 : ℝ) * (t : ℝ)) * 100⌋ :=
    Int.le_floor.mpr (by exact_mod_cast hlow)
  have hq : ((100 : ℤ) : ℚ) ≤
      ((⌊Real.exp ((6 / 100000 : ℝ) * (t : ℝ)) * 100⌋ : ℤ) : ℚ) := by
    exact_mod_cast hfloor
  unfold calculateMultiplier
  push_cast at hq
  linarith

lemma calculateMultiplier_mono {a b : Nat} (h : a ≤ b) :
    calculateMultiplier a ≤ calculateMultiplier b := by
  have hexp : Real.exp ((6 / 100000 : ℝ) * (a : ℝ)) * 100 ≤
      Real.exp ((6 / 100000 : ℝ) * (b : ℝ)) * 100 := by
    have hab : ((6 : ℝ) / 100000) * (a : ℝ) ≤ (6 / 100000 : ℝ) * (b : ℝ) := by
      apply mul_le_mul_of_nonneg_left _ (by norm_num)
      exact_mod_cast h
    nlinarith [Real.exp_le_exp.mpr hab, Real.exp_pos ((6 / 100000 : ℝ) * (a : ℝ))]
  have hfl := Int.floor_le_floor hexp
  have hq : ((⌊Real.exp ((6 / 100000 : ℝ) * (a : ℝ)) * 100⌋ : ℤ) : ℚ) ≤
      ((⌊Real.exp ((6 / 100000 : ℝ) * (b : ℝ)) * 100⌋ : ℤ) : ℚ) := by
    exact_mod_cast hfl
  unfold calculateMultiplier
  linarith

lemma finalizedRound_of_multiplier_update (r : Round) (m : ℚ) (now : Nat) :
    finalizedRound { r with currentMultiplier := m } now = finalizedRound r now :=
  rfl

lemma losersOf_finalized (r : Round) (now : Nat) :
    losersOf (finalizedRound r now) = losersOf r :=
  rfl

lemma verificationOf_finalized (r : Round) (now : Nat) :
    verificationOf (finalizedRound r now) = verificationOf r :=
  rfl

lemma crash_none {now : Nat} {s : EngineState} (h : s.currentRound = none) :
    crash now s = (none, s) := by
  unfold crash
  rw [h]

lemma crash_some {now : Nat} {s : EngineState} {r : Round}
    (h : s.currentRound = some r) :
    crash now s =
      (some { round := finalizedRound r now
              losers := losersOf r
              verification := verificationOf r },
        { currentRound := none
          roundHistory := historyPush (historyEntryOf (finalizedRound r now))
            s.roundHistory }) := by
  unfold crash
  rw [h]
  rfl

lemma tick_none {now : Nat} {s : EngineState} (h : s.currentRound = none) :
    tick now s = (none, s) := by
  unfold tick
  rw [h]

lemma tick_not_running {now : Nat} {s : EngineState} {r : Round}
    (h : s.currentRound = some r) (hst : r.status ≠ RoundStatus.running) :
    tick now s = (none, s) := by
  unfold tick
  rw [h]
  simp [hst]

lemma tick_advances {now : Nat} {s : EngineState} {r : Round} {m : ℚ}
    (h : s.currentRound = some r) (hst : r.status = RoundStatus.running)
    (hm : m = calculateMultiplier (now - r.startTime.getD 0))
    (hcp : ¬ r.crashPoint ≤ m) :
    tick now s =
      (some (TickResult.tick m), { s with currentRound := some ({ r with currentMultiplier := m }) }) := by
  subst hm
  unfold tick
  rw [h]
  simp [hst, hcp]

lemma tick_crashes {now : Nat} {s : EngineState} {r : Round}
    (h : s.currentRound = some r) (hst : r.status = RoundStatus.running)
    (hcp : r.crashPoint ≤ calculateMultiplier (now - r.startTime.getD 0)) :
    tick now s =
      (some (TickResult.crashed
          { round := finalizedRound r now
            losers := losersOf r
            verification := verificationOf r }),
        { currentRound := none
          roundHistory := historyPush (historyEntryOf (finalizedRound r now))
            s.roundHistory }) := by
  unfold tick
  rw [h]
  simp only [hst, reduceIte]
  rw [if_pos hcp]
  rfl

lemma tick_tick_inv {now : Nat} {s : EngineState} {m : ℚ} {s' : EngineState}
    (h : tick now s = (some (TickResult.tick m), s')) :
    ∃ r, s.currentRound = some r ∧ r.status = RoundStatus.running ∧
      m = calculateMultiplier (now - r.startTime.getD 0) ∧
      ¬ r.crashPoint ≤ m ∧
      s' = { s with currentRound := some ({ r with currentMultiplier := m }) } := by
  rcases hs : s.currentRound with _ | r
  · rw [tick_none hs] at h
    simp at h
  · by_cases hst : r.status = RoundStatus.running
    · by_cases hcp : r.crashPoint ≤ calculateMultiplier (now - r.startTime.getD 0)
      · rw [tick_crashes hs hst hcp] at h
        simp at h
      · rw [tick_advances hs hst rfl hcp] at h
        rw [Prod.mk.injEq] at h
        obtain ⟨h1, h2⟩ := h
        simp only [Option.some.injEq, TickResult.tick.injEq] at h1
        subst h1
        exact ⟨r, rfl, hst, rfl, hcp, h2.symm⟩
    · rw [tick_not_running hs hst] at h
      simp at h

lemma tick_crashed_inv {now : Nat} {s : EngineState} {cr : CrashResult}
    {s' : EngineState}
    (h : tick now s = (some (TickResult.crashed cr), s')) :
    ∃ r, s.currentRound = some r ∧ r.status = RoundStatus.running ∧
      r.crashPoint ≤ calculateMultiplier (now - r.startTime.getD 0) ∧
      cr = { round := finalizedRound r now
             losers := losersOf r
             verification := verificationOf r } ∧
      s' = { currentRound := none
             roundHistory := historyPush (historyEntryOf (finalizedRound r now))
               s.roundHistory } := by
  rcases hs : s.currentRound with _ | r
  · rw [tick_none hs] at h
    simp at h
  · by_cases hst : r.status = RoundStatus.running
    · by_cases hcp : r.crashPoint ≤ calculateMultiplier (now - r.startTime.getD 0)
      · rw [tick_crashes hs hst hcp] at h
        rw [Prod.mk.injEq] at h
        obtain ⟨h1, h2⟩ := h
        simp only [Option.some.injEq, TickResult.crashed.injEq] at h1
        exact ⟨r, rfl, hst, hcp, h1.symm, h2.symm⟩
      · rw [tick_advances hs hst rfl hcp] at h
        simp at h
    · rw [tick_not_running hs hst] at h
      simp at h

lemma two_le_calculateMultiplier_20000 : (2 : ℚ) ≤ calculateMultiplier 20000 := by
  have hfloor : (200 : ℤ) ≤
      ⌊Real.exp ((6 / 100000 : ℝ) * ((20000 : Nat) : ℝ)) * 100⌋ := by
    apply Int.le_floor.mpr
    have h := Real.add_one_le_exp ((6 / 100000 : ℝ) * ((20000 : Nat) : ℝ))
    push_cast
    push_cast at h
    nlinarith
  have hq : ((200 : ℤ) : ℚ) ≤
      ((⌊Real.exp ((6 / 100000 : ℝ) * ((20000 : Nat) : ℝ)) * 100⌋ : ℤ) : ℚ) := by
    exact_mod_cast hfloor
  unfold calculateMultiplier
  push_cast at hq
  linarith

lemma wtick0 : tick 0 wState = (some (TickResult.tick 1), wState1) := by
  have hm : (1 : ℚ) = calculateMultiplier (0 - wRound.startTime.getD 0) := by
    show (1 : ℚ) = calculateMultiplier 0
    exact calculateMultiplier_zero.symm
  exact tick_advances rfl rfl hm (by norm_num [wRound, mkRound])

lemma wtick1 : tick 1 wState1 = (some (TickResult.tick 1), wState2) := by
  have hm : (1 : ℚ) = calculateMultiplier (1 - wRound1.startTime.getD 0) := by
    show (1 : ℚ) = calculateMultiplier 1
    exact calculateMultiplier_one.symm
  exact tick_advances rfl rfl hm (by norm_num [wRound1, wRound, mkRound])

lemma wtick2 : tick 20000 wState2 = (some (TickResult.crashed wCrash), wState3) := by
  have hcp : wRound2.crashPoint ≤
      calculateMultiplier (20000 - wRound2.startTime.getD 0) := by
    show (2 : ℚ) ≤ calculateMultiplier 20000
    exact two_le_calculateMultiplier_20000
  exact tick_crashes rfl rfl hcp

lemma mapGet_cons {α : Type} (a : String × α) (t : List (String × α))
    (k : String) :
    mapGet (a :: t) k = if a.fst = k then some a.snd else mapGet t k := by
  unfold mapGet
  rw [List.find?_cons]
  by_cases h : a.fst = k
  · simp [h]
  · simp [h]

lemma mapGet_append_left {α : Type} {m l : List (String × α)} {k : String}
    {v : α} (h : mapGet m k = some v) : mapGet (m ++ l) k = some v := by
  induction m with
  | nil => simp [mapGet] at h
  | cons a t ih =>
    rw [mapGet_cons] at h
    rw [List.cons_append, mapGet_cons]
    by_cases ha : a.fst = k
    · rw [if_pos ha] at h ⊢
      exact h
    · rw [if_neg ha] at h ⊢
      exact ih h

lemma mapGet_map_update_ne {α : Type} {m : List (String × α)} {q k : String}
    {v : α} (hne : k ≠ q) :
    mapGet (m.map (fun p => if p.fst = q then (q, v) else p)) k = mapGet m k := by
  induction m with
  | nil => rfl
  | cons a t ih =>
    rw [List.map_cons]
    by_cases ha : a.fst = q
    · rw [if_pos ha, mapGet_cons, mapGet_cons]
      have h1 : ((q, v) : String × α).fst = k ↔ False := by
        simp
        exact fun h => hne h.symm
      have h2 : (a.fst = k) ↔ False := by
        simp
        rw [ha]
        exact fun h => hne h.symm
      simp only [h1, if_false, h2]
      exact ih
    · rw [if_neg ha, mapGet_cons, mapGet_cons]
      by_cases hk : a.fst = k
      · rw [if_pos hk, if_pos hk]
      · rw [if_neg hk, if_neg hk]
        exact ih

lemma mapGet_mapSet_preserved {α : Type} {m : List (String × α)}
    {q k : String} {v b : α} (hne : k ≠ q) (h : mapGet m k = some b) :
    mapGet (mapSet m q v) k = some b := by
  unfold mapSet
  by_cases hq : mapHas m q
  · rw [if_pos hq, mapGet_map_update_ne hne]
    exact h
  · rw [if_neg hq]
    exact mapGet_append_left h

lemma filter_key_nil_of_get_none {α : Type} {m : List (String × α)}
    {k : String} (h : mapGet m k = none) :
    m.filter (fun p => p.fst = k) = [] := by
  induction m with
  | nil => rfl
  | cons a t ih =>
    rw [mapGet_cons] at h
    by_cases ha : a.fst = k
    · rw [if_pos ha] at h
      cases h
    · rw [if_neg ha] at h
      rw [List.filter_cons]
      simp only [ha, decide_False, if_false]
      exact ih h

lemma keyCount_mapSet_of_get_none {α : Type} {m : List (String × α)}
    {k : String} (v : α) (h : mapGet m k = none) :
    keyCount (mapSet m k v) k = 1 := by
  have hhas : mapHas m k = false := by
    unfold mapHas
    rw [h]
    rfl
  unfold mapSet
  rw [hhas]
  simp only [Bool.false_eq_true, if_false]
  unfold keyCount
  rw [List.filter_append, filter_key_nil_of_get_none h]
  simp

lemma mem_losersOf {r : Round} {pid : String} {b : Bet} :
    ({ playerId := pid, bet := b } : LoserEntry) ∈ losersOf r ↔
      ((pid, b) ∈ r.bets ∧ mapGet r.cashedOut pid = none) := by
  unfold losersOf
  rw [List.mem_map]
  constructor
  · rintro ⟨⟨k, v⟩, hmem, heq⟩
    rw [List.mem_filter] at hmem
    obtain ⟨h1, h2⟩ := hmem
    have hk : k = pid ∧ v = b := by
      constructor
      · exact congrArg LoserEntry.playerId heq
      · exact congrArg LoserEntry.bet heq
    obtain ⟨hk1, hk2⟩ := hk
    subst hk1
    subst hk2
    refine ⟨h1, ?_⟩
    simp only [Bool.not_eq_true'] at h2
    unfold mapHas at h2
    exact Option.not_isSome_iff_eq_none.mp (by rw [h2]; simp)
  · rintro ⟨h1, h2⟩
    refine ⟨(pid, b), ?_, rfl⟩
    rw [List.mem_filter]
    refine ⟨h1, ?_⟩
    simp [mapHas, h2]

lemma cashout_error_state {pid : String} {now : Nat} {s s' : EngineState}
    {msg : String} (h : cashout pid now s = (Except.error msg, s')) :
    s' = s := by
  unfold cashout at h
  repeat' split at h
  all_goals injection h with h1 h2
  all_goals first
    | exact h2.symm
    | cases h1

lemma mapHas_false_iff {α : Type} {m : List (String × α)} {k : String} :
    mapHas m k = false ↔ mapGet m k = none := by
  unfold mapHas
  cases mapGet m k <;> simp

lemma cashout_no_round {pid : String} {now : Nat} {s : EngineState}
    (h : s.currentRound = none) :
    cashout pid now s = (Except.error "No active round", s) := by
  unfold cashout
  rw [h]

lemma cashout_not_running {pid : String} {now : Nat} {s : EngineState}
    {r : Round} (h : s.currentRound = some r)
    (hst : r.status ≠ RoundStatus.running) :
    cashout pid now s = (Except.error "Round is not running", s) := by
  unfold cashout
  rw [h]
  simp [hst]

lemma cashout_no_bet {pid : String} {now : Nat} {s : EngineState} {r : Round}
    (h : s.currentRound = some r) (hst : r.status = RoundStatus.running)
    (hb : mapGet r.bets pid = none) :
    cashout pid now s = (Except.error "No bet found for player", s) := by
  unfold cashout
  rw [h]
  simp [hst, hb]

lemma cashout_already {pid : String} {now : Nat} {s : EngineState} {r : Round}
    {bet : Bet} (h : s.currentRound = some r)
    (hst : r.status = RoundStatus.running)
    (hb : mapGet r.bets pid = some bet) (hc : mapHas r.cashedOut pid = true) :
    cashout pid now s = (Except.error "Already cashed out", s) := by
  unfold cashout
  rw [h]
  simp [hst, hb, hc]

lemma cashout_ok {pid : String} {now : Nat} {s : EngineState} {r : Round}
    {bet : Bet} {d : CashoutData}
    (h : s.currentRound = some r) (hst : r.status = RoundStatus.running)
    (hb : mapGet r.bets pid = some bet) (hc : mapHas r.cashedOut pid = false)
    (hd : d = { playerId := pid, betAmount := bet.amount
                multiplier := r.currentMultiplier
                winAmount := ((⌊bet.amount * r.currentMultiplier * 100⌋ : ℤ) : ℚ) / 100
                cashedOutAt := now }) :
    cashout pid now s =
      (Except.ok d,
        { s with currentRound := some ({ r with cashedOut := mapSet r.cashedOut pid d }) }) := by
  subst hd
  unfold cashout
  rw [h]
  simp [hst, hb, hc]

lemma addBet_no_round {pid sid : String} {amt : ℚ} {now : Nat}
    {s : EngineState} (h : s.currentRound = none) :
    addBet pid amt sid now s = (Except.error "No active round", s) := by
  unfold addBet
  rw [h]

lemma addBet_wrong_status {pid sid : String} {amt : ℚ} {now : Nat}
    {s : EngineState} {r : Round} (h : s.currentRound = some r)
    (hst : r.status ≠ RoundStatus.betting) :
    addBet pid amt sid now s = (Except.error "Betting phase has ended", s) := by
  unfold addBet
  rw [h]
  simp [hst]

lemma addBet_duplicate {pid sid : String} {amt : ℚ} {now : Nat}
    {s : EngineState} {r : Round} (h : s.currentRound = some r)
    (hst : r.status = RoundStatus.betting) (hb : mapHas r.bets pid = true) :
    addBet pid amt sid now s =
      (Except.error "Already placed a bet this round", s) := by
  unfold addBet
  rw [h]
  simp [hst, hb]

lemma addBet_ok {pid sid : String} {amt : ℚ} {now : Nat} {s : EngineState}
    {r : Round} {b : Bet} (h : s.currentRound = some r)
    (hst : r.status = RoundStatus.betting) (hb : mapHas r.bets pid = false)
    (hbet : b = { playerId := pid, sessionId := sid, amount := amt, placedAt := now }) :
    addBet pid amt sid now s =
      (Except.ok b,
        { s with currentRound := some ({ r with bets := mapSet r.bets pid b }) }) := by
  subst hbet
  unfold addBet
  rw [h]
  simp [hst, hb]

lemma addBet_error_state {pid sid : String} {amt : ℚ} {now : Nat}
    {s s' : EngineState} {msg : String}
    (h : addBet pid amt sid now s = (Except.error msg, s')) :
    s' = s := by
  unfold addBet at h
  repeat' split at h
  all_goals injection h with h1 h2
  all_goals first
    | exact h2.symm
    | cases h1

lemma startBettingPhase_some {sha256 : String → String}
    {hmac48 : String → String → Nat} {ss cs : String} {n t : Nat}
    {s : EngineState} {r : Round} (h : s.currentRound = some r) :
    startBettingPhase sha256 hmac48 ss cs n t s =
      { s with currentRound := some ({ r with status := RoundStatus.betting }) } := by
  unfold startBettingPhase
  simp [h]

lemma startRound_none {now : Nat} {s : EngineState}
    (h : s.currentRound = none) :
    startRound now s = (Except.error "No round in betting phase", s) := by
  unfold startRound
  rw [h]

lemma startRound_not_betting {now : Nat} {s : EngineState} {r : Round}
    (h : s.currentRound = some r) (hst : r.status ≠ RoundStatus.betting) :
    startRound now s = (Except.error "No round in betting phase", s) := by
  unfold startRound
  rw [h]
  simp [hst]

lemma startRound_betting {now : Nat} {s : EngineState} {r r' : Round}
    (h : s.currentRound = some r) (hst : r.status = RoundStatus.betting)
    (hr' : r' =
      { r with
        status := RoundStatus.running
        startTime := some now
        currentMultiplier := 1 }) :
    startRound now s = (Except.ok r', { s with currentRound := some r' }) := by
  subst hr'
  unfold startRound
  rw [h]
  simp [hst]

lemma mem_historyPush {e en : HistoryEntry} {h : List HistoryEntry}
    (hm : e ∈ historyPush en h) : e = en ∨ e ∈ h := by
  unfold historyPush at hm
  by_cases hl : (en :: h).length > 50
  · rw [if_pos hl] at hm
    have hsub : (en :: h).dropLast.Sublist (en :: h) := List.dropLast_sublist _
    have := hsub.subset hm
    simpa using this
  · rw [if_neg hl] at hm
    simpa using hm

lemma hashInv_applyOp {sha256 : String → String}
    {hmac48 : String → String → Nat} {s : EngineState} {op : Op}
    (h : hashInv sha256 s) : hashInv sha256 (applyOp sha256 hmac48 s op) := by
  obtain ⟨hcur, hhist⟩ := h
  cases op with
  | generate ss cs n t =>
    refine ⟨?_, hhist⟩
    intro r' hr'
    have heq : (applyOp sha256 hmac48 s (Op.generate ss cs n t)).currentRound =
        some (generateRound sha256 hmac48 ss cs n t s).fst := rfl
    rw [heq, Option.some.injEq] at hr'
    rw [← hr']
    rfl
  | startBetting ss cs n t =>
    rcases hs : s.currentRound with _ | r
    · have hstate : applyOp sha256 hmac48 s (Op.startBetting ss cs n t) = { s with currentRound := some ({ (generateRound sha256 hmac48 ss cs n t s).fst with status := RoundStatus.betting }) } := by
        show startBettingPhase sha256 hmac48 ss cs n t s = _
        unfold startBettingPhase
        simp [hs]
        rfl
      rw [hstate]
      refine ⟨?_, hhist⟩
      intro r' hr'
      simp only [Option.some.injEq] at hr'
      rw [← hr']
      rfl
    · rw [show applyOp sha256 hmac48 s (Op.startBetting ss cs n t) =
        startBettingPhase sha256 hmac48 ss cs n t s from rfl,
        startBettingPhase_some hs]
      refine ⟨?_, hhist⟩
      intro r' hr'
      simp only [Option.some.injEq] at hr'
      rw [← hr']
      exact hcur r hs
  | start t =>
    rcases hs : s.currentRound with _ | r
    · rw [show applyOp sha256 hmac48 s (Op.start t) = (startRound t s).snd from rfl,
        startRound_none hs]
      exact ⟨hcur, hhist⟩
    · by_cases hst : r.status = RoundStatus.betting
      · rw [show applyOp sha256 hmac48 s (Op.start t) = (startRound t s).snd from rfl,
          startRound_betting hs hst rfl]
        refine ⟨?_, hhist⟩
        intro r' hr'
        simp only [Option.some.injEq] at hr'
        rw [← hr']
        exact hcur r hs
      · rw [show applyOp sha256 hmac48 s (Op.start t) = (startRound t s).snd from rfl,
          startRound_not_betting hs hst]
        exact ⟨hcur, hhist⟩
  | tickAt t =>
    rcases hs : s.currentRound with _ | r
    · rw [show applyOp sha256 hmac48 s (Op.tickAt t) = (tick t s).snd from rfl,
        tick_none hs]
      exact ⟨hcur, hhist⟩
    · by_cases hst : r.status = RoundStatus.running
      · by_cases hcp : r.crashPoint ≤ calculateMultiplier (t - r.startTime.getD 0)
        · rw [show applyOp sha256 hmac48 s (Op.tickAt t) = (tick t s).snd from rfl,
            tick_crashes hs hst hcp]
          refine ⟨?_, ?_⟩
          · intro r' hr'
            cases hr'
          · intro e he
            rcases mem_historyPush he with he1 | he2
            · rw [he1]
              exact hcur r hs
            · exact hhist e he2
        · rw [show applyOp sha256 hmac48 s (Op.tickAt t) = (tick t s).snd from rfl,
            tick_advances hs hst rfl hcp]
          refine ⟨?_, hhist⟩
          intro r' hr'
          simp only [Option.some.injEq] at hr'
          rw [← hr']
          exact hcur r hs
      · rw [show applyOp sha256 hmac48 s (Op.tickAt t) = (tick t s).snd from rfl,
          tick_not_running hs hst]
        exact ⟨hcur, hhist⟩
  | addBetOp q amt sid t =>
    rcases hs : s.currentRound with _ | r
    · rw [show applyOp sha256 hmac48 s (Op.addBetOp q amt sid t) =
        (addBet q amt sid t s).snd from rfl, addBet_no_round hs]
      exact ⟨hcur, hhist⟩
    · by_cases hst : r.status = RoundStatus.betting
      · by_cases hq : mapHas r.bets q
        · rw [show applyOp sha256 hmac48 s (Op.addBetOp q amt sid t) =
            (addBet q amt sid t s).snd from rfl, addBet_duplicate hs hst hq]
          exact ⟨hcur, hhist⟩
        · have hqf : mapHas r.bets q = false := by simpa using hq
          rw [show applyOp sha256 hmac48 s (Op.addBetOp q amt sid t) =
            (addBet q amt sid t s).snd from rfl, addBet_ok hs hst hqf rfl]
          refine ⟨?_, hhist⟩
          intro r' hr'
          simp only [Option.some.injEq] at hr'
          rw [← hr']
          exact hcur r hs
      · rw [show applyOp sha256 hmac48 s (Op.addBetOp q amt sid t) =
          (addBet q amt sid t s).snd from rfl, addBet_wrong_status hs hst]
        exact ⟨hcur, hhist⟩
  | cashoutOp q t =>
    rcases hs : s.currentRound with _ | r
    · rw [show applyOp sha256 hmac48 s (Op.cashoutOp q t) =
        (cashout q t s).snd from rfl, cashout_no_round hs]
      exact ⟨hcur, hhist⟩
    · by_cases hst : r.status = RoundStatus.running
      · rcases hbq : mapGet r.bets q with _ | betq
        · rw [show applyOp sha256 hmac48 s (Op.cashoutOp q t) =
            (cashout q t s).snd from rfl, cashout_no_bet hs hst hbq]
          exact ⟨hcur, hhist⟩
        · by_cases hcq : mapHas r.cashedOut q
          · rw [show applyOp sha256 hmac48 s (Op.cashoutOp q t) =
              (cashout q t s).snd from rfl, cashout_already hs hst hbq hcq]
            exact ⟨hcur, hhist⟩
          · have hcqf : mapHas r.cashedOut q = false := by simpa using hcq
            rw [show applyOp sha256 hmac48 s (Op.cashoutOp q t) =
              (cashout q t s).snd from rfl, cashout_ok hs hst hbq hcqf rfl]
            refine ⟨?_, hhist⟩
            intro r' hr'
            simp only [Option.some.injEq] at hr'
            rw [← hr']
            exact hcur r hs
      · rw [show applyOp sha256 hmac48 s (Op.cashoutOp q t) =
          (cashout q t s).snd from rfl, cashout_not_running hs hst]
        exact ⟨hcur, hhist⟩

lemma hashInv_runOps {sha256 : String → String}
    {hmac48 : String → String → Nat} {s : EngineState} {ops : List Op}
    (h : hashInv sha256 s) :
    hashInv sha256 (runOps sha256 hmac48 s ops) := by
  induction ops generalizing s with
  | nil => exact h
  | cons op rest ih =>
    exact ih (hashInv_applyOp h)

lemma hashInv_initial (sha256 : String → String) :
    hashInv sha256 initialState := by
  constructor
  · intro r hr
    cases hr
  · intro e he
    cases he

lemma seeds_applyOp_no_generate {sha256 : String → String}
    {hmac48 : String → String → Nat} {s : EngineState} {op : Op} {r : Round}
    (hr : s.currentRound = some r)
    (hop : ∀ ss cs n t, op ≠ Op.generate ss cs n t) :
    ∀ r', (applyOp sha256 hmac48 s op).currentRound = some r' →
      r'.serverSeed = r.serverSeed ∧ r'.serverSeedHash = r.serverSeedHash := by
  intro r' hr'
  cases op with
  | generate ss cs n t => exact absurd rfl (hop ss cs n t)
  | startBetting ss cs n t =>
    rw [applyOp, startBettingPhase_some hr] at hr'
    simp only [Option.some.injEq] at hr'
    rw [← hr']
    exact ⟨rfl, rfl⟩
  | start t =>
    by_cases hst : r.status = RoundStatus.betting
    · rw [applyOp, startRound_betting hr hst rfl] at hr'
      simp only [Option.some.injEq] at hr'
      rw [← hr']
      exact ⟨rfl, rfl⟩
    · rw [applyOp, startRound_not_betting hr hst] at hr'
      rw [hr] at hr'
      simp only [Option.some.injEq] at hr'
      rw [← hr']
      exact ⟨rfl, rfl⟩
  | tickAt t =>
    by_cases hst : r.status = RoundStatus.running
    · by_cases hcp : r.crashPoint ≤ calculateMultiplier (t - r.startTime.getD 0)
      · rw [applyOp, tick_crashes hr hst hcp] at hr'
        cases hr'
      · rw [applyOp, tick_advances hr hst rfl hcp] at hr'
        simp only [Option.some.injEq] at hr'
        rw [← hr']
        exact ⟨rfl, rfl⟩
    · rw [applyOp, tick_not_running hr hst] at hr'
      rw [hr] at hr'
      simp only [Option.some.injEq] at hr'
      rw [← hr']
      exact ⟨rfl, rfl⟩
  | addBetOp q amt sid t =>
    by_cases hst : r.status = RoundStatus.betting
    · by_cases hq : mapHas r.bets q
      · rw [applyOp, addBet_duplicate hr hst hq] at hr'
        rw [hr] at hr'
        simp only [Option.some.injEq] at hr'
        rw [← hr']
        exact ⟨rfl, rfl⟩
      · have hqf : mapHas r.bets q = false := by simpa using hq
        rw [applyOp, addBet_ok hr hst hqf rfl] at hr'
        simp only [Option.some.injEq] at hr'
        rw [← hr']
        exact ⟨rfl, rfl⟩
    · rw [applyOp, addBet_wrong_status hr hst] at hr'
      rw [hr] at hr'
      simp only [Option.some.injEq] at hr'
      rw [← hr']
      exact ⟨rfl, rfl⟩
  | cashoutOp q t =>
    by_cases hst : r.status = RoundStatus.running
    · rcases hbq : mapGet r.bets q with _ | betq
      · rw [applyOp, cashout_no_bet hr hst hbq] at hr'
        rw [hr] at hr'
        simp only [Option.some.injEq] at hr'
        rw [← hr']
        exact ⟨rfl, rfl⟩
      · by_cases hcq : mapHas r.cashedOut q
        · rw [applyOp, cashout_already hr hst hbq hcq] at hr'
          rw [hr] at hr'
          simp only [Option.some.injEq] at hr'
          rw [← hr']
          exact ⟨rfl, rfl⟩
        · have hcqf : mapHas r.cashedOut q = false := by simpa using hcq
          rw [applyOp, cashout_ok hr hst hbq hcqf rfl] at hr'
          simp only [Option.some.injEq] at hr'
          rw [← hr']
          exact ⟨rfl, rfl⟩
    · rw [applyOp, cashout_not_running hr hst] at hr'
      rw [hr] at hr'
      simp only [Option.some.injEq] at hr'
      rw [← hr']
      exact ⟨rfl, rfl⟩

lemma midRound_none_applyOp {sha256 : String → String}
    {hmac48 : String → String → Nat} {s : EngineState} {op : Op}
    (hmid : midRoundOp op) (hs : s.currentRound = none) :
    (applyOp sha256 hmac48 s op).currentRound = none := by
  cases op with
  | generate ss cs n t => exact False.elim hmid
  | startBetting ss cs n t => exact False.elim hmid
  | start t =>
    rw [applyOp, startRound_none hs]
    exact hs
  | tickAt t =>
    rw [applyOp, tick_none hs]
    exact hs
  | addBetOp q amt sid t =>
    rw [applyOp, addBet_no_round hs]
    exact hs
  | cashoutOp q t =>
    rw [applyOp, cashout_no_round hs]
    exact hs

lemma midRound_none_runOps (sha256 : String → String)
    (hmac48 : String → String → Nat) (ops : List Op) :
    ∀ s : EngineState, (∀ op ∈ ops, midRoundOp op) → s.currentRound = none →
      (runOps sha256 hmac48 s ops).currentRound = none := by
  induction ops with
  | nil =>
    intro s _ hs
    exact hs
  | cons op rest ih =>
    intro s hmid hs
    exact ih (applyOp sha256 hmac48 s op)
      (fun o ho => hmid o (List.mem_cons_of_mem op ho))
      (midRound_none_applyOp (hmid op (List.mem_cons_self op rest)) hs)

lemma midRound_seeds_runOps {sha256 : String → String}
    {hmac48 : String → String → Nat} (ops : List Op) :
    ∀ (s : EngineState) (r : Round), (∀ op ∈ ops, midRoundOp op) →
      s.currentRound = some r →
      ∀ r', (runOps sha256 hmac48 s ops).currentRound = some r' →
        r'.serverSeed = r.serverSeed ∧ r'.serverSeedHash = r.serverSeedHash := by
  induction ops with
  | nil =>
    intro s r _ hr r' hr'
    have hr2 : s.currentRound = some r' := hr'
    rw [hr] at hr2
    injection hr2 with h2
    rw [← h2]
    exact ⟨rfl, rfl⟩
  | cons op rest ih =>
    intro s r hmid hr r' hr'
    have hop : midRoundOp op := hmid op (List.mem_cons_self op rest)
    have hrest : ∀ o ∈ rest, midRoundOp o :=
      fun o ho => hmid o (List.mem_cons_of_mem op ho)
    rcases hs1 : (applyOp sha256 hmac48 s op).currentRound with _ | r1
    · have hnone :=
        midRound_none_runOps sha256 hmac48 rest (applyOp sha256 hmac48 s op)
          hrest hs1
      have hsome : (runOps sha256 hmac48 (applyOp sha256 hmac48 s op)
          rest).currentRound = some r' := hr'
      rw [hnone] at hsome
      cases hsome
    · have hop2 : ∀ ss cs n t, op ≠ Op.generate ss cs n t := by
        intro ss cs n t he
        rw [he] at hop
        exact hop
      have hstep := seeds_applyOp_no_generate hr hop2 r1 hs1
      have hrec := ih (applyOp sha256 hmac48 s op) r1 hrest hs1 r' hr'
      exact ⟨hrec.1.trans hstep.1, hrec.2.trans hstep.2⟩

lemma cCrashPoint : calculateCrashPoint (fun _ _ => 0) "sA" "c" 1 = 1 := by
  norm_num [calculateCrashPoint]

lemma cTrace_round : cTrace.currentRound = some cRun := rfl

lemma ctick : tick 7 cTrace = (some (TickResult.crashed cCr), cS3) := by
  have hcp : cRun.crashPoint ≤ calculateMultiplier (7 - cRun.startTime.getD 0) :=
    le_of_eq (cCrashPoint.trans calculateMultiplier_zero.symm)
  have hst : cRun.status = RoundStatus.running := rfl
  exact tick_crashes cTrace_round hst hcp

lemma makeRequest_nil {α : Type} (payload : α) (a : Nat) :
    makeRequest payload [] a =
      { result := Except.error "no response", sent := [], delays := [] } :=
  rfl

lemma makeRequest_ok {α : Type} (payload : α) (resp : PlatformResponse)
    (rest : List AttemptOutcome) (a : Nat) :
    makeRequest payload (AttemptOutcome.ok resp :: rest) a =
      { result := Except.ok resp
        sent := [(payload, config.TIMEOUT_MS)]
        delays := [] } :=
  rfl

lemma makeRequest_err_retry {α : Type} (payload : α) {o : AttemptOutcome}
    (rest : List AttemptOutcome) {a : Nat} (ho : attemptError o ≠ none)
    (ha : a < config.RETRY_ATTEMPTS) :
    makeRequest payload (o :: rest) a =
      { result := (makeRequest payload rest (a + 1)).result
        sent := (payload, config.TIMEOUT_MS) ::
          (makeRequest payload rest (a + 1)).sent
        delays := config.RETRY_DELAY_MS * a ::
          (makeRequest payload rest (a + 1)).delays } := by
  cases o with
  | ok resp => simp [attemptError] at ho
  | httpError st m => simp [makeRequest, ha]
  | netError m => simp [makeRequest, ha]

lemma makeRequest_err_exhausted {α : Type} (payload : α) {o : AttemptOutcome}
    (rest : List AttemptOutcome) {a : Nat} (ho : attemptError o ≠ none)
    (ha : ¬ a < config.RETRY_ATTEMPTS) :
    makeRequest payload (o :: rest) a =
      { result := Except.error ((attemptError o).getD "")
        sent := [(payload, config.TIMEOUT_MS)]
        delays := [] } := by
  cases o with
  | ok resp => simp [attemptError] at ho
  | httpError st m => simp [makeRequest, ha]
  | netError m => simp [makeRequest, ha]

lemma makeRequest_sent_le {α : Type} (payload : α)
    (outs : List AttemptOutcome) :
    ∀ a, a ≤ config.RETRY_ATTEMPTS → 1 ≤ a →
      (makeRequest payload outs a).sent.length ≤
        config.RETRY_ATTEMPTS - a + 1 := by
  induction outs with
  | nil =>
    intro a ha h1
    rw [makeRequest_nil]
    simp
  | cons o rest ih =>
    intro a ha h1
    cases ho : attemptError o with
    | none =>
      cases o with
      | ok resp =>
        rw [makeRequest_ok]
        simp [config.RETRY_ATTEMPTS] at *
      | httpError st m => simp [attemptError] at ho
      | netError m => simp [attemptError] at ho
    | some err =>
      by_cases hlt : a < config.RETRY_ATTEMPTS
      · rw [makeRequest_err_retry payload rest (by rw [ho]; simp) hlt]
        have := ih (a + 1) (by omega) (by omega)
        simp only [List.length_cons]
        omega
      · rw [makeRequest_err_exhausted payload rest (by rw [ho]; simp) hlt]
        simp [config.RETRY_ATTEMPTS] at *

lemma makeRequest_sent_payload {α : Type} (payload : α)
    (outs : List AttemptOutcome) :
    ∀ a, ∀ x ∈ (makeRequest payload outs a).sent,
      x = (payload, config.TIMEOUT_MS) := by
  induction outs with
  | nil =>
    intro a x hx
    rw [makeRequest_nil] at hx
    cases hx
  | cons o rest ih =>
    intro a x hx
    cases ho : attemptError o with
    | none =>
      cases o with
      | ok resp =>
        rw [makeRequest_ok] at hx
        simpa using hx
      | httpError st m => simp [attemptError] at ho
      | netError m => simp [attemptError] at ho
    | some err =>
      by_cases hlt : a < config.RETRY_ATTEMPTS
      · rw [makeRequest_err_retry payload rest (by rw [ho]; simp) hlt] at hx
        rcases List.mem_cons.mp hx with hx1 | hx2
        · exact hx1
        · exact ih (a + 1) x hx2
      · rw [makeRequest_err_exhausted payload rest (by rw [ho]; simp) hlt] at hx
        simpa using hx

lemma makeRequest_delays_linear {α : Type} (payload : α)
    (outs : List AttemptOutcome) :
    ∀ a i (h : i < (makeRequest payload outs a).delays.length),
      (makeRequest payload outs a).delays.get ⟨i, h⟩ =
        config.RETRY_DELAY_MS * (a + i) := by
  induction outs with
  | nil =>
    intro a i h
    rw [makeRequest_nil] at h
    cases h
  | cons o rest ih =>
    intro a i h
    cases ho : attemptError o with
    | none =>
      cases o with
      | ok resp =>
        rw [makeRequest_ok] at h
        cases h
      | httpError st m => simp [attemptError] at ho
      | netError m => simp [attemptError] at ho
    | some err =>
      by_cases hlt : a < config.RETRY_ATTEMPTS
      · have heq := makeRequest_err_retry payload rest
          (o := o) (a := a) (by rw [ho]; simp) hlt
        rcases i with _ | j
        · simp [heq]
        · have h' : j < (makeRequest payload rest (a + 1)).delays.length := by
            have := h
            rw [heq] at this
            simpa using this
          have := ih (a + 1) j h'
          have hget : (makeRequest payload (o :: rest) a).delays.get ⟨j + 1, h⟩ =
              (makeRequest payload rest (a + 1)).delays.get ⟨j, h'⟩ := by
            simp [heq]
          rw [hget, this]
          ring_nf
      · have heq := makeRequest_err_exhausted payload rest
          (o := o) (a := a) (by rw [ho]; simp) hlt
        rw [heq] at h
        cases h

lemma mapGet_append_single {α : Type} {m : List (String × α)} {k : String}
    {v : α} (h : mapGet m k = none) : mapGet (m ++ [(k, v)]) k = some v := by
  induction m with
  | nil =>
    rw [List.nil_append, mapGet_cons]
    simp
  | cons a t ih =>
    rw [mapGet_cons] at h
    by_cases ha : a.fst = k
    · rw [if_pos ha] at h
      cases h
    · rw [if_neg ha] at h
      rw [List.cons_append, mapGet_cons, if_neg ha]
      exact ih h

lemma mapGet_map_update_self {α : Type} {m : List (String × α)} {k : String}
    {v : α} (h : mapHas m k = true) :
    mapGet (m.map (fun p => if p.fst = k then (k, v) else p)) k = some v := by
  induction m with
  | nil => simp [mapHas, mapGet] at h
  | cons a t ih =>
    by_cases ha : a.fst = k
    · rw [List.map_cons, if_pos ha, mapGet_cons]
      simp
    · rw [List.map_cons, if_neg ha, mapGet_cons, if_neg ha]
      apply ih
      unfold mapHas at h ⊢
      rw [mapGet_cons, if_neg ha] at h
      exact h

lemma mapGet_mapSet_self {α : Type} {m : List (String × α)} {k : String}
    {v : α} : mapGet (mapSet m k v) k = some v := by
  unfold mapSet
  by_cases hq : mapHas m k
  · rw [if_pos hq]
    exact mapGet_map_update_self hq
  · rw [if_neg hq]
    exact mapGet_append_single (mapHas_false_iff.mp (by simpa using hq))

/-!
Claim theorems.
-/

/-- C1: for every (serverSeed, clientSeed, nonce), the crash point
computed by CrashEngine.calculateCrashPoint equals the spec formula on
raw = (first 48 bits of HMAC-SHA256(serverSeed, clientSeed:nonce)) / 2^48:
exactly 1.00 when raw < 0.01, otherwise floor((0.99 / (1 - raw)) x 100) / 100
capped at the configured MAX_MULTIPLIER; and raw = 0.005 yields exactly
1.00. -/
theorem crashPoint_matches_spec_formula (hmac48 : String → String → Nat)
    (serverSeed clientSeed : String) (nonce : Nat)
    (hrange : hmac48 serverSeed (clientSeed ++ ":" ++ toString nonce) < 2 ^ 48) :
    calculateCrashPoint hmac48 serverSeed clientSeed nonce =
      specCrashPointOfRaw
        ((hmac48 serverSeed (clientSeed ++ ":" ++ toString nonce) : ℚ) / 2 ^ 48) ∧
    specCrashPointOfRaw (1 / 200) = 1 := by
  constructor
  · rfl
  · norm_num [specCrashPointOfRaw]

/-- Witness for C1 at the concrete digest value 0 and at a digest of
2^47 (raw = 1/2). -/
theorem crashPoint_matches_spec_formula_witness :
    calculateCrashPoint (fun _ _ => 0) "s" "c" 0 =
      specCrashPointOfRaw (((0 : Nat) : ℚ) / 2 ^ 48) ∧
    specCrashPointOfRaw (1 / 200) = 1 :=
  crashPoint_matches_spec_formula (fun _ _ => 0) "s" "c" 0 (by norm_num)

/-- C3 counterexample: the truncated multiplier curve is not strictly
increasing in elapsed time — elapsed 0 ms and 1 ms both give exactly
1.00 after the 2-decimal floor. -/
theorem multiplier_not_strictly_increasing :
    (0 : Nat) < 1 ∧ calculateMultiplier 0 = calculateMultiplier 1 := by
  refine ⟨by norm_num, ?_⟩
  rw [calculateMultiplier_zero, calculateMultiplier_one]

/-- C3 amended: the multiplier curve is non-decreasing in elapsed time
(the underlying exponential is strictly increasing, but the 2-decimal
truncation makes the emitted value only non-decreasing); across
successive ticks of a running round the broadcast multiplier is
non-decreasing, a tick multiplier never exceeds the final crash
multiplier, and the final multiplier emitted on crash equals the
crashPoint of the round exactly, never an overshoot value. -/
theorem multiplier_monotone_and_crash_exact
    (e1 e2 : Nat) (he : e1 ≤ e2)
    (s s1 s2 s3 : EngineState) (now1 now2 now3 : Nat) (m1 m2 : ℚ)
    (cr : CrashResult)
    (h1 : tick now1 s = (some (TickResult.tick m1), s1))
    (h12 : now1 ≤ now2)
    (h2 : tick now2 s1 = (some (TickResult.tick m2), s2))
    (h3 : tick now3 s2 = (some (TickResult.crashed cr), s3)) :
    calculateMultiplier e1 ≤ calculateMultiplier e2 ∧
    m1 ≤ m2 ∧ m2 ≤ cr.round.currentMultiplier ∧
    cr.round.currentMultiplier = cr.round.crashPoint := by
  obtain ⟨r, hr, hrs, hm1, hcp1, hs1⟩ := tick_tick_inv h1
  obtain ⟨r2, hr2, hrs2, hm2, hcp2, hs2⟩ := tick_tick_inv h2
  obtain ⟨r3, hr3, hrs3, hcp3, hcr, hs3'⟩ := tick_crashed_inv h3
  have hr2' : r2 = { r with currentMultiplier := m1 } := by
    rw [hs1] at hr2
    simpa using hr2.symm
  have hr3' : r3 = { r2 with currentMultiplier := m2 } := by
    rw [hs2] at hr3
    simpa using hr3.symm
  subst hr2'
  subst hr3'
  subst hcr
  refine ⟨calculateMultiplier_mono he, ?_, ?_, rfl⟩
  · rw [hm1, hm2]
    simp only []
    exact calculateMultiplier_mono (Nat.sub_le_sub_right h12 _)
  · have hlt : m2 < r.crashPoint := by
      simpa using not_le.mp hcp2
    simpa [finalizedRound] using le_of_lt hlt

/-- Witness for C3 amended: the fixture round with crash point 2.00
ticked at 0 ms, 1 ms and 20000 ms. -/
theorem multiplier_monotone_and_crash_exact_witness :
    calculateMultiplier 0 ≤ calculateMultiplier 1 ∧
    (1 : ℚ) ≤ 1 ∧ (1 : ℚ) ≤ wCrash.round.currentMultiplier ∧
    wCrash.round.currentMultiplier = wCrash.round.crashPoint :=
  multiplier_monotone_and_crash_exact 0 1 (by norm_num)
    wState wState1 wState2 wState3 0 1 20000 1 1 wCrash
    wtick0 (by norm_num) wtick1 wtick2

/-- C10: after the crash transition the engine holds no current round;
with no current round, getCurrentRound returns none, tick returns null
without changing state, and addBet and cashout reject with the
no-active-round error leaving the state (history included) unchanged. -/
theorem no_round_after_crash (s : EngineState) (hs : s.currentRound = none)
    (now : Nat) (pid sid : String) (amt : ℚ) :
    getCurrentRound s = none ∧
    tick now s = (none, s) ∧
    addBet pid amt sid now s = (Except.error "No active round", s) ∧
    cashout pid now s = (Except.error "No active round", s) ∧
    (∀ now' s0 cr s', tick now' s0 = (some (TickResult.crashed cr), s') →
      s'.currentRound = none) := by
  refine ⟨?_, tick_none hs, ?_, ?_, ?_⟩
  · simp [getCurrentRound, hs]
  · unfold addBet
    rw [hs]
  · unfold cashout
    rw [hs]
  · intro now' s0 cr s' h
    obtain ⟨r, _, _, _, _, hs'⟩ := tick_crashed_inv h
    rw [hs']

/-- Witness for C10 on the freshly constructed engine state. -/
theorem no_round_after_crash_witness :
    getCurrentRound initialState = none ∧
    tick 5 initialState = (none, initialState) ∧
    addBet "p" 10 "sess" 5 initialState = (Except.error "No active round", initialState) ∧
    cashout "p" 5 initialState = (Except.error "No active round", initialState) ∧
    (∀ now' s0 cr s', tick now' s0 = (some (TickResult.crashed cr), s') →
      s'.currentRound = none) :=
  no_round_after_crash initialState rfl 5 "p" "sess" 10

/-- C6 counterexample: for a player with no bet in the current round,
CrashEngine.cashout does not always fail with the no-bet-found error —
when the round is still in its betting phase the status check fires
first and the error is the round-not-running one. -/
theorem cashout_no_bet_error_counterexample :
    mapGet (mkRound RoundStatus.betting 2 1 [] []).bets "p" = none ∧
    cashout "p" 3 (mkState (mkRound RoundStatus.betting 2 1 [] [])) =
      (Except.error "Round is not running",
        mkState (mkRound RoundStatus.betting 2 1 [] [])) ∧
    ("Round is not running" : String) ≠ "No bet found for player" := by
  refine ⟨rfl, ?_, by decide⟩
  exact cashout_not_running rfl (by simp [mkRound])

/-- C6 amended: cashout(playerId) fails whenever the round status is
not running (also when no round exists), fails for a player with no bet
in the current round — with the "No bet found for player" error when
the round is running, the status error taking precedence otherwise —
and fails when a cashout already exists for the player; every failure
leaves the engine state unchanged, and a successful cashout happens
only when none was recorded and leaves exactly one Cashout for the
player, hence at most one Cashout per player per round. -/
theorem cashout_validation (s : EngineState) (pid : String) (now : Nat) :
    (s.currentRound = none →
      cashout pid now s = (Except.error "No active round", s)) ∧
    (∀ r, s.currentRound = some r → r.status ≠ RoundStatus.running →
      cashout pid now s = (Except.error "Round is not running", s)) ∧
    (∀ r, s.currentRound = some r → r.status = RoundStatus.running →
      mapGet r.bets pid = none →
      cashout pid now s = (Except.error "No bet found for player", s)) ∧
    (∀ r bet, s.currentRound = some r → r.status = RoundStatus.running →
      mapGet r.bets pid = some bet → mapHas r.cashedOut pid = true →
      cashout pid now s = (Except.error "Already cashed out", s)) ∧
    (∀ msg s', cashout pid now s = (Except.error msg, s') → s' = s) ∧
    (∀ r d s' r', s.currentRound = some r →
      cashout pid now s = (Except.ok d, s') →
      mapGet r.cashedOut pid = none ∧
      (s'.currentRound = some r' → keyCount r'.cashedOut pid = 1)) := by
  refine ⟨fun h => cashout_no_round h,
    fun r h hst => cashout_not_running h hst,
    fun r h hst hb => cashout_no_bet h hst hb,
    fun r bet h hst hb hc => cashout_already h hst hb hc,
    fun msg s' h => cashout_error_state h, ?_⟩
  intro r d s' r' hr hok
  by_cases hst : r.status = RoundStatus.running
  · rcases hb : mapGet r.bets pid with _ | bet
    · rw [cashout_no_bet hr hst hb] at hok
      exact absurd (congrArg Prod.fst hok) (by simp)
    · by_cases hc : mapHas r.cashedOut pid
      · rw [cashout_already hr hst hb hc] at hok
        exact absurd (congrArg Prod.fst hok) (by simp)
      · have hcf : mapHas r.cashedOut pid = false := by
          simpa using hc
        have hget : mapGet r.cashedOut pid = none := mapHas_false_iff.mp hcf
        rw [cashout_ok hr hst hb hcf rfl] at hok
        refine ⟨hget, fun hr' => ?_⟩
        have hs' := (Prod.mk.injEq _ _ _ _ ▸ hok).2
        rw [← hs'] at hr'
        simp only [Option.some.injEq] at hr'
        rw [← hr']
        exact keyCount_mapSet_of_get_none _ hget
  · rw [cashout_not_running hr hst] at hok
    exact absurd (congrArg Prod.fst hok) (by simp)

/-- Witness for C6 on a concrete running round holding one bet. -/
theorem cashout_validation_witness :
    ((mkState (mkRound RoundStatus.running 2 1 [("p", pBet)] [])).currentRound = none →
      cashout "p" 7 (mkState (mkRound RoundStatus.running 2 1 [("p", pBet)] [])) =
        (Except.error "No active round",
          mkState (mkRound RoundStatus.running 2 1 [("p", pBet)] []))) ∧
    (∀ r, (mkState (mkRound RoundStatus.running 2 1 [("p", pBet)] [])).currentRound = some r →
      r.status ≠ RoundStatus.running →
      cashout "p" 7 (mkState (mkRound RoundStatus.running 2 1 [("p", pBet)] [])) =
        (Except.error "Round is not running",
          mkState (mkRound RoundStatus.running 2 1 [("p", pBet)] []))) ∧
    (∀ r, (mkState (mkRound RoundStatus.running 2 1 [("p", pBet)] [])).currentRound = some r →
      r.status = RoundStatus.running → mapGet r.bets "p" = none →
      cashout "p" 7 (mkState (mkRound RoundStatus.running 2 1 [("p", pBet)] [])) =
        (Except.error "No bet found for player",
          mkState (mkRound RoundStatus.running 2 1 [("p", pBet)] []))) ∧
    (∀ r bet, (mkState (mkRound RoundStatus.running 2 1 [("p", pBet)] [])).currentRound = some r →
      r.status = RoundStatus.running → mapGet r.bets "p" = some bet →
      mapHas r.cashedOut "p" = true →
      cashout "p" 7 (mkState (mkRound RoundStatus.running 2 1 [("p", pBet)] [])) =
        (Except.error "Already cashed out",
          mkState (mkRound RoundStatus.running 2 1 [("p", pBet)] []))) ∧
    (∀ msg s', cashout "p" 7 (mkState (mkRound RoundStatus.running 2 1 [("p", pBet)] [])) =
      (Except.error msg, s') → s' = mkState (mkRound RoundStatus.running 2 1 [("p", pBet)] [])) ∧
    (∀ r d s' r', (mkState (mkRound RoundStatus.running 2 1 [("p", pBet)] [])).currentRound = some r →
      cashout "p" 7 (mkState (mkRound RoundStatus.running 2 1 [("p", pBet)] [])) =
        (Except.ok d, s') →
      mapGet r.cashedOut "p" = none ∧
      (s'.currentRound = some r' → keyCount r'.cashedOut "p" = 1)) :=
  cashout_validation (mkState (mkRound RoundStatus.running 2 1 [("p", pBet)] [])) "p" 7

/-- C7: addBet fails whenever the round status is not betting (also
when no round exists), fails whenever the player already has a bet this
round — so a success presupposes no prior bet and leaves exactly one
Bet for the player, hence at most one Bet per player per round — and
the bet amount is validated against the configured MIN_BET..MAX_BET
bounds by BetService.placeBet before any debit callback; once placed,
the bet survives every further engine operation on the same round. -/
theorem addBet_validation (s : EngineState) (pid sid : String) (amt : ℚ)
    (now : Nat) :
    (s.currentRound = none →
      addBet pid amt sid now s = (Except.error "No active round", s)) ∧
    (∀ r, s.currentRound = some r → r.status ≠ RoundStatus.betting →
      addBet pid amt sid now s = (Except.error "Betting phase has ended", s)) ∧
    (∀ r, s.currentRound = some r → r.status = RoundStatus.betting →
      mapHas r.bets pid = true →
      addBet pid amt sid now s =
        (Except.error "Already placed a bet this round", s)) ∧
    (∀ r d s' r', s.currentRound = some r →
      addBet pid amt sid now s = (Except.ok d, s') →
      mapGet r.bets pid = none ∧
      (s'.currentRound = some r' → keyCount r'.bets pid = 1)) ∧
    (∀ sessionId currency cbUrl e1 ab outcomes e2, amt < config.MIN_BET →
      placeBetService pid sessionId currency cbUrl amt e1 ab outcomes now e2 =
        { result := Except.error "Minimum bet is 1", engine := e1
          activeBets := ab, debitCalled := false, rollbackCalls := [] }) ∧
    (∀ sessionId currency cbUrl e1 ab outcomes e2, amt > config.MAX_BET →
      placeBetService pid sessionId currency cbUrl amt e1 ab outcomes now e2 =
        { result := Except.error "Maximum bet is 100000000000", engine := e1
          activeBets := ab, debitCalled := false, rollbackCalls := [] }) ∧
    (∀ sha256 hmac48 op r b, s.currentRound = some r →
      mapGet r.bets pid = some b →
      (∀ ss cs n t, op ≠ Op.generate ss cs n t) →
      ∀ r', (applyOp sha256 hmac48 s op).currentRound = some r' →
        mapGet r'.bets pid = some b) := by
  refine ⟨fun h => addBet_no_round h,
    fun r h hst => addBet_wrong_status h hst,
    fun r h hst hb => addBet_duplicate h hst hb, ?_, ?_, ?_, ?_⟩
  · intro r d s' r' hr hok
    by_cases hst : r.status = RoundStatus.betting
    · by_cases hb : mapHas r.bets pid
      · rw [addBet_duplicate hr hst hb] at hok
        exact absurd (congrArg Prod.fst hok) (by simp)
      · have hbf : mapHas r.bets pid = false := by simpa using hb
        have hget : mapGet r.bets pid = none := mapHas_false_iff.mp hbf
        rw [addBet_ok hr hst hbf rfl] at hok
        refine ⟨hget, fun hr' => ?_⟩
        have hs' := (Prod.mk.injEq _ _ _ _ ▸ hok).2
        rw [← hs'] at hr'
        simp only [Option.some.injEq] at hr'
        rw [← hr']
        exact keyCount_mapSet_of_get_none _ hget
    · rw [addBet_wrong_status hr hst] at hok
      exact absurd (congrArg Prod.fst hok) (by simp)
  · intro sessionId currency cbUrl e1 ab outcomes e2 hlt
    unfold placeBetService
    rw [if_pos hlt]
  · intro sessionId currency cbUrl e1 ab outcomes e2 hgt
    have hnlt : ¬ amt < config.MIN_BET := by
      simp only [config.MIN_BET, config.MAX_BET] at *
      linarith
    unfold placeBetService
    rw [if_neg hnlt, if_pos hgt]
  · intro sha256 hmac48 op r b hr hb hop r' hr'
    cases op with
    | generate ss cs n t => exact absurd rfl (hop ss cs n t)
    | startBetting ss cs n t =>
      rw [applyOp, startBettingPhase_some hr] at hr'
      simp only [Option.some.injEq] at hr'
      rw [← hr']
      exact hb
    | start t =>
      by_cases hst : r.status = RoundStatus.betting
      · rw [applyOp, startRound_betting hr hst rfl] at hr'
        simp only [Option.some.injEq] at hr'
        rw [← hr']
        exact hb
      · rw [applyOp, startRound_not_betting hr hst] at hr'
        rw [hr] at hr'
        simp only [Option.some.injEq] at hr'
        rw [← hr']
        exact hb
    | tickAt t =>
      by_cases hst : r.status = RoundStatus.running
      · by_cases hcp : r.crashPoint ≤ calculateMultiplier (t - r.startTime.getD 0)
        · rw [applyOp, tick_crashes hr hst hcp] at hr'
          cases hr'
        · rw [applyOp, tick_advances hr hst rfl hcp] at hr'
          simp only [Option.some.injEq] at hr'
          rw [← hr']
          exact hb
      · rw [applyOp, tick_not_running hr hst] at hr'
        rw [hr] at hr'
        simp only [Option.some.injEq] at hr'
        rw [← hr']
        exact hb
    | addBetOp q amt' sid' t =>
      by_cases hst : r.status = RoundStatus.betting
      · by_cases hq : mapHas r.bets q
        · rw [applyOp, addBet_duplicate hr hst hq] at hr'
          rw [hr] at hr'
          simp only [Option.some.injEq] at hr'
          rw [← hr']
          exact hb
        · have hqf : mapHas r.bets q = false := by simpa using hq
          have hne : pid ≠ q := by
            intro he
            rw [← he] at hqf
            rw [mapHas_false_iff.mp hqf] at hb
            cases hb
          rw [applyOp, addBet_ok hr hst hqf rfl] at hr'
          simp only [Option.some.injEq] at hr'
          rw [← hr']
          exact mapGet_mapSet_preserved hne hb
      · rw [applyOp, addBet_wrong_status hr hst] at hr'
        rw [hr] at hr'
        simp only [Option.some.injEq] at hr'
        rw [← hr']
        exact hb
    | cashoutOp q t =>
      by_cases hst : r.status = RoundStatus.running
      · rcases hbq : mapGet r.bets q with _ | betq
        · rw [applyOp, cashout_no_bet hr hst hbq] at hr'
          rw [hr] at hr'
          simp only [Option.some.injEq] at hr'
          rw [← hr']
          exact hb
        · by_cases hcq : mapHas r.cashedOut q
          · rw [applyOp, cashout_already hr hst hbq hcq] at hr'
            rw [hr] at hr'
            simp only [Option.some.injEq] at hr'
            rw [← hr']
            exact hb
          · have hcqf : mapHas r.cashedOut q = false := by simpa using hcq
            rw [applyOp, cashout_ok hr hst hbq hcqf rfl] at hr'
            simp only [Option.some.injEq] at hr'
            rw [← hr']
            exact hb
      · rw [applyOp, cashout_not_running hr hst] at hr'
        rw [hr] at hr'
        simp only [Option.some.injEq] at hr'
        rw [← hr']
        exact hb

/-- Witness for C7 on the betting-phase fixture state. -/
theorem addBet_validation_witness :
    (bState.currentRound = none →
      addBet "q" 5 "sess" 9 bState = (Except.error "No active round", bState)) ∧
    (∀ r, bState.currentRound = some r → r.status ≠ RoundStatus.betting →
      addBet "q" 5 "sess" 9 bState = (Except.error "Betting phase has ended", bState)) ∧
    (∀ r, bState.currentRound = some r → r.status = RoundStatus.betting →
      mapHas r.bets "q" = true →
      addBet "q" 5 "sess" 9 bState =
        (Except.error "Already placed a bet this round", bState)) ∧
    (∀ r d s' r', bState.currentRound = some r →
      addBet "q" 5 "sess" 9 bState = (Except.ok d, s') →
      mapGet r.bets "q" = none ∧
      (s'.currentRound = some r' → keyCount r'.bets "q" = 1)) ∧
    (∀ sessionId currency cbUrl e1 ab outcomes e2, (5 : ℚ) < config.MIN_BET →
      placeBetService "q" sessionId currency cbUrl 5 e1 ab outcomes 9 e2 =
        { result := Except.error "Minimum bet is 1", engine := e1
          activeBets := ab, debitCalled := false, rollbackCalls := [] }) ∧
    (∀ sessionId currency cbUrl e1 ab outcomes e2, (5 : ℚ) > config.MAX_BET →
      placeBetService "q" sessionId currency cbUrl 5 e1 ab outcomes 9 e2 =
        { result := Except.error "Maximum bet is 100000000000", engine := e1
          activeBets := ab, debitCalled := false, rollbackCalls := [] }) ∧
    (∀ sha256 hmac48 op r b, bState.currentRound = some r →
      mapGet r.bets "q" = some b →
      (∀ ss cs n t, op ≠ Op.generate ss cs n t) →
      ∀ r', (applyOp sha256 hmac48 bState op).currentRound = some r' →
        mapGet r'.bets "q" = some b) :=
  addBet_validation bState "q" "sess" 5 9

/-- C8: when tick reaches the crash threshold it performs the crash
transition and returns the finalized round — final multiplier exactly
the crash point — together with losers that are exactly the bets with
no matching cashout (every player with a recorded cashout is excluded);
below the threshold it returns the current multiplier; and a cashout
attempted after the crash transition (engine round cleared, player
still tracked by the settlement layer) fails with the round-not-running
error. -/
theorem tick_crash_losers_and_late_cashout
    (s : EngineState) (r : Round) (now : Nat)
    (hr : s.currentRound = some r) (hrs : r.status = RoundStatus.running) :
    (r.crashPoint ≤ calculateMultiplier (now - r.startTime.getD 0) →
      ∃ cr s', tick now s = (some (TickResult.crashed cr), s') ∧
        cr.round = finalizedRound r now ∧
        cr.round.status = RoundStatus.crashed ∧
        cr.round.currentMultiplier = r.crashPoint ∧
        s'.currentRound = none ∧
        (∀ pid b, ({ playerId := pid, bet := b } : LoserEntry) ∈ cr.losers ↔
          ((pid, b) ∈ r.bets ∧ mapGet r.cashedOut pid = none))) ∧
    (¬ r.crashPoint ≤ calculateMultiplier (now - r.startTime.getD 0) →
      tick now s =
        (some (TickResult.tick (calculateMultiplier (now - r.startTime.getD 0))),
          { s with currentRound := some ({ r with currentMultiplier := calculateMultiplier (now - r.startTime.getD 0) }) })) ∧
    (∀ s0 ab entry pid sid cur outs t,
      EngineState.currentRound s0 = none → mapGet ab pid = some entry →
      (processCashout pid sid cur ab s0 outs t).result =
        Except.error "Round is not running") := by
  refine ⟨?_, ?_, ?_⟩
  · intro hcp
    refine ⟨_, _, tick_crashes hr hrs hcp, rfl, rfl, rfl, rfl, ?_⟩
    intro pid b
    exact mem_losersOf
  · intro hcp
    exact tick_advances hr hrs rfl hcp
  · intro s0 ab entry pid sid cur outs t hs0 hab
    unfold processCashout
    rw [hab]
    simp [hasPlayerCashedOut, getCurrentRound, hs0]

/-- Witness for C8 on the fixture running round with crash point 2.00
ticked at 20000 ms, where the threshold is reached. -/
theorem tick_crash_losers_and_late_cashout_witness :
    (wRound.crashPoint ≤ calculateMultiplier (20000 - wRound.startTime.getD 0) →
      ∃ cr s', tick 20000 wState = (some (TickResult.crashed cr), s') ∧
        cr.round = finalizedRound wRound 20000 ∧
        cr.round.status = RoundStatus.crashed ∧
        cr.round.currentMultiplier = wRound.crashPoint ∧
        s'.currentRound = none ∧
        (∀ pid b, ({ playerId := pid, bet := b } : LoserEntry) ∈ cr.losers ↔
          ((pid, b) ∈ wRound.bets ∧ mapGet wRound.cashedOut pid = none))) ∧
    (¬ wRound.crashPoint ≤ calculateMultiplier (20000 - wRound.startTime.getD 0) →
      tick 20000 wState =
        (some (TickResult.tick (calculateMultiplier (20000 - wRound.startTime.getD 0))),
          { wState with currentRound := some ({ wRound with currentMultiplier := calculateMultiplier (20000 - wRound.startTime.getD 0) }) })) ∧
    (∀ s0 ab entry pid sid cur outs t,
      EngineState.currentRound s0 = none → mapGet ab pid = some entry →
      (processCashout pid sid cur ab s0 outs t).result =
        Except.error "Round is not running") :=
  tick_crash_losers_and_late_cashout wState wRound 20000 rfl rfl

/-- C2: the serverSeedHash is computed as SHA-256 of the serverSeed the
moment generateRound installs the round (first conjunct); no engine
operation other than generating a fresh round ever changes either field
of the live round, so both stay fixed from before betting opened until
the crash (second conjunct); along the real lifecycle — generateRound,
then startBettingPhase (where the hash is published), then any sequence
of mid-round operations (startRound, ticks, bets, cashouts) — the crash
transition reveals exactly the generated serverSeed next to exactly the
hash SHA-256(serverSeed) that was published before betting opened, so
hashing the revealed seed reproduces the published commitment (third
conjunct); and from a fresh engine every crash result and every
archived round satisfy serverSeedHash = SHA-256(serverSeed) (fourth
conjunct). -/
theorem commitment_reveal_integrity (sha256 : String → String)
    (hmac48 : String → String → Nat) :
    (∀ ss cs n t s,
      (generateRound sha256 hmac48 ss cs n t s).fst.serverSeed = ss ∧
      (generateRound sha256 hmac48 ss cs n t s).fst.serverSeedHash = sha256 ss ∧
      (generateRound sha256 hmac48 ss cs n t s).snd.currentRound =
        some (generateRound sha256 hmac48 ss cs n t s).fst) ∧
    (∀ s op r, EngineState.currentRound s = some r →
      (∀ ss cs n t, op ≠ Op.generate ss cs n t) →
      ∀ r', (applyOp sha256 hmac48 s op).currentRound = some r' →
        r'.serverSeed = r.serverSeed ∧ r'.serverSeedHash = r.serverSeedHash) ∧
    (∀ ss cs n t ss2 cs2 n2 t2 s ops now cr s',
      (∀ op ∈ ops, midRoundOp op) →
      tick now (runOps sha256 hmac48
          (startBettingPhase sha256 hmac48 ss2 cs2 n2 t2
            (generateRound sha256 hmac48 ss cs n t s).snd) ops) =
        (some (TickResult.crashed cr), s') →
      cr.round.serverSeed = ss ∧ cr.round.serverSeedHash = sha256 ss ∧
      cr.verification.serverSeed = ss ∧
      cr.verification.serverSeedHash = sha256 ss) ∧
    (∀ ops, hashInv sha256 (runOps sha256 hmac48 initialState ops) ∧
      (∀ now cr s',
        tick now (runOps sha256 hmac48 initialState ops) =
          (some (TickResult.crashed cr), s') →
        cr.verification.serverSeed = cr.round.serverSeed ∧
        cr.verification.serverSeedHash = cr.round.serverSeedHash ∧
        cr.verification.serverSeedHash = sha256 cr.verification.serverSeed ∧
        (∀ e, e ∈ s'.roundHistory → e.serverSeedHash = sha256 e.serverSeed))) := by
  refine ⟨?_, ?_, ?_, ?_⟩
  · intro ss cs n t s
    exact ⟨rfl, rfl, rfl⟩
  · intro s op r hr hop r' hr'
    exact seeds_applyOp_no_generate hr hop r' hr'
  · intro ss cs n t ss2 cs2 n2 t2 s ops now cr s' hmid h
    have hg : (generateRound sha256 hmac48 ss cs n t s).snd.currentRound =
        some (generateRound sha256 hmac48 ss cs n t s).fst := rfl
    have hb : (startBettingPhase sha256 hmac48 ss2 cs2 n2 t2
          (generateRound sha256 hmac48 ss cs n t s).snd).currentRound =
        some ({ (generateRound sha256 hmac48 ss cs n t s).fst with status := RoundStatus.betting }) := by
      rw [startBettingPhase_some hg]
    obtain ⟨r1, hr1, hrs, hcp, hcr, hs2⟩ := tick_crashed_inv h
    have hpres := midRound_seeds_runOps ops _ _ hmid hb r1 hr1
    subst hcr
    exact ⟨hpres.1, hpres.2, hpres.1, hpres.2⟩
  · intro ops
    have hinv : hashInv sha256 (runOps sha256 hmac48 initialState ops) :=
      hashInv_runOps (hashInv_initial sha256)
    refine ⟨hinv, ?_⟩
    intro now cr s' h
    obtain ⟨r, hr, hrs, hcp, hcr, hs'⟩ := tick_crashed_inv h
    have hhash := hinv.1 r hr
    subst hcr
    refine ⟨rfl, rfl, hhash, ?_⟩
    intro e he
    rw [hs'] at he
    rcases mem_historyPush he with he1 | he2
    · rw [he1]
      exact hhash
    · exact hinv.2 e he2

/-- Witness for C2: on the concrete hash function "H:" ++ x and the
concrete lifecycle that generates a round from serverSeed "sA" at t =
5, opens betting at t = 6, starts the round at t = 7 and crashes on the
tick at t = 7, the hypotheses of the lifecycle conjunct hold (the one
operation is a mid-round operation and the tick provably crashes), and
the revealed pair is exactly ("sA", "H:" ++ "sA"). -/
theorem commitment_reveal_integrity_witness :
    (∀ op ∈ [Op.start 7], midRoundOp op) ∧
    tick 7 cTrace = (some (TickResult.crashed cCr), cS3) ∧
    cCr.round.serverSeed = "sA" ∧
    cCr.round.serverSeedHash = "H:" ++ "sA" ∧
    cCr.verification.serverSeed = "sA" ∧
    cCr.verification.serverSeedHash = "H:" ++ "sA" := by
  have hmid : ∀ op ∈ [Op.start 7], midRoundOp op := by
    intro op hop
    rw [List.mem_singleton.mp hop]
    exact True.intro
  have htick : tick 7 cTrace = (some (TickResult.crashed cCr), cS3) := ctick
  have hc := (commitment_reveal_integrity (fun x => "H:" ++ x)
      (fun _ _ => 0)).2.2.1
    "sA" "c" 1 5 "sB" "c" 2 6 initialState [Op.start 7] 7 cCr cS3 hmid htick
  exact ⟨hmid, htick, hc.1, hc.2.1, hc.2.2.1, hc.2.2.2⟩

/-- C9: every logical callback sends at most RETRY_ATTEMPTS = 3
attempts, each attempt carries the identical payload (hence the same
requestId) and the bounded per-attempt timeout TIMEOUT_MS, the sleeps
between attempts grow linearly as RETRY_DELAY_MS x attempt number,
failed attempts (network errors and non-2xx) are retried while the
budget allows, a 2xx response returns immediately, and a 2xx body
without a transactionId (in-band structured rejection) is returned to
the caller at once as a failure without any retry. -/
theorem callback_retry_policy {α : Type} (payload : α)
    (outs : List AttemptOutcome) :
    (makeRequest payload outs 1).sent.length ≤ config.RETRY_ATTEMPTS ∧
    (∀ x ∈ (makeRequest payload outs 1).sent, x = (payload, config.TIMEOUT_MS)) ∧
    (∀ i (h : i < (makeRequest payload outs 1).delays.length),
      (makeRequest payload outs 1).delays.get ⟨i, h⟩ =
        config.RETRY_DELAY_MS * (1 + i)) ∧
    (∀ o rest a, attemptError o ≠ none → a < config.RETRY_ATTEMPTS →
      (makeRequest payload (o :: rest) a).result =
        (makeRequest payload rest (a + 1)).result) ∧
    (∀ resp rest a, makeRequest payload (AttemptOutcome.ok resp :: rest) a =
      { result := Except.ok resp
        sent := [(payload, config.TIMEOUT_MS)]
        delays := [] }) ∧
    (∀ roundId playerId sessionId amount currency now resp rest,
      PlatformResponse.transactionId resp = none →
      callbackPlaceBet roundId playerId sessionId amount currency now
          (AttemptOutcome.ok resp :: rest) =
        (CallbackResult.failure resp.code resp.message
            ("BET-" ++ roundId ++ "-" ++ playerId ++ "-" ++ toString now),
          { result := Except.ok resp
            sent := [(betPayloadOf roundId playerId sessionId amount currency now,
              config.TIMEOUT_MS)]
            delays := [] })) := by
  refine ⟨?_, makeRequest_sent_payload payload outs 1,
    makeRequest_delays_linear payload outs 1, ?_, ?_, ?_⟩
  · have h := makeRequest_sent_le payload outs 1
      (by simp [config.RETRY_ATTEMPTS]) (le_refl 1)
    simpa [config.RETRY_ATTEMPTS] using h
  · intro o rest a ho ha
    rw [makeRequest_err_retry payload rest ho ha]
  · intro resp rest a
    exact makeRequest_ok payload resp rest a
  · intro roundId playerId sessionId amount currency now resp rest htx
    simp [callbackPlaceBet, makeRequest_ok, htx]

/-- Witness for C9 on a concrete payload and three concrete failing
attempts. -/
theorem callback_retry_policy_witness :
    (makeRequest (betPayloadOf "R-1-1" "p" "sess" 10 "EUR" 5)
      [AttemptOutcome.netError "timeout", AttemptOutcome.httpError 500 "oops",
        AttemptOutcome.netError "down"] 1).sent.length ≤ config.RETRY_ATTEMPTS ∧
    (∀ x ∈ (makeRequest (betPayloadOf "R-1-1" "p" "sess" 10 "EUR" 5)
      [AttemptOutcome.netError "timeout", AttemptOutcome.httpError 500 "oops",
        AttemptOutcome.netError "down"] 1).sent,
      x = (betPayloadOf "R-1-1" "p" "sess" 10 "EUR" 5, config.TIMEOUT_MS)) ∧
    (∀ i (h : i < (makeRequest (betPayloadOf "R-1-1" "p" "sess" 10 "EUR" 5)
      [AttemptOutcome.netError "timeout", AttemptOutcome.httpError 500 "oops",
        AttemptOutcome.netError "down"] 1).delays.length),
      (makeRequest (betPayloadOf "R-1-1" "p" "sess" 10 "EUR" 5)
        [AttemptOutcome.netError "timeout", AttemptOutcome.httpError 500 "oops",
          AttemptOutcome.netError "down"] 1).delays.get ⟨i, h⟩ =
        config.RETRY_DELAY_MS * (1 + i)) ∧
    (∀ o rest a, attemptError o ≠ none → a < config.RETRY_ATTEMPTS →
      (makeRequest (betPayloadOf "R-1-1" "p" "sess" 10 "EUR" 5) (o :: rest) a).result =
        (makeRequest (betPayloadOf "R-1-1" "p" "sess" 10 "EUR" 5) rest (a + 1)).result) ∧
    (∀ resp rest a,
      makeRequest (betPayloadOf "R-1-1" "p" "sess" 10 "EUR" 5)
          (AttemptOutcome.ok resp :: rest) a =
        { result := Except.ok resp
          sent := [(betPayloadOf "R-1-1" "p" "sess" 10 "EUR" 5, config.TIMEOUT_MS)]
          delays := [] }) ∧
    (∀ roundId playerId sessionId amount currency now resp rest,
      PlatformResponse.transactionId resp = none →
      callbackPlaceBet roundId playerId sessionId amount currency now
          (AttemptOutcome.ok resp :: rest) =
        (CallbackResult.failure resp.code resp.message
            ("BET-" ++ roundId ++ "-" ++ playerId ++ "-" ++ toString now),
          { result := Except.ok resp
            sent := [(betPayloadOf roundId playerId sessionId amount currency now,
              config.TIMEOUT_MS)]
            delays := [] })) :=
  callback_retry_policy (betPayloadOf "R-1-1" "p" "sess" 10 "EUR" 5)
    [AttemptOutcome.netError "timeout", AttemptOutcome.httpError 500 "oops",
      AttemptOutcome.netError "down"]

/-- C4: bet settlement is debit-first. When the debit callback fails
(transport failure after the retry budget or an in-band business
rejection), placeBet reports a failure, registers no Bet in the engine,
leaves the activeBets map alone and issues no compensating call; when
the debit succeeds but the engine registration then throws (e.g. a
duplicate bet placed during the await), exactly one compensating
rollback referencing the transactionId of the debit is issued and the caller
receives the original registration error, not the result of the rollback. -/
theorem placeBet_debit_first_ordering
    (playerId sessionId currency cbUrl : String) (amount : ℚ)
    (e1 e2 : EngineState) (ab : List (String × ActiveBet)) (now : Nat)
    (r : Round)
    (hr : e1.currentRound = some r) (hrs : r.status = RoundStatus.betting)
    (hmin : ¬ amount < config.MIN_BET) (hmax : ¬ amount > config.MAX_BET)
    (hnobet : getPlayerBet playerId e1 = none) :
    (∀ outcomes code message rid,
      (callbackPlaceBet r.id playerId sessionId (roundTo2 amount) currency now
        outcomes).fst = CallbackResult.failure code message rid →
      placeBetService playerId sessionId currency cbUrl amount e1 ab outcomes now e2 =
        { result := Except.error (jsOr message code "Bet rejected by platform")
          engine := e2
          activeBets := ab
          debitCalled := true
          rollbackCalls := [] }) ∧
    (∀ outcomes tx newBal rid err,
      (callbackPlaceBet r.id playerId sessionId (roundTo2 amount) currency now
        outcomes).fst = CallbackResult.success tx newBal rid →
      (addBet playerId (roundTo2 amount) sessionId now e2).fst = Except.error err →
      placeBetService playerId sessionId currency cbUrl amount e1 ab outcomes now e2 =
        { result := Except.error err
          engine := e2
          activeBets := ab
          debitCalled := true
          rollbackCalls := [{ roundId := r.id
                              playerId := playerId
                              sessionId := sessionId
                              amount := roundTo2 amount
                              currency := currency
                              originalTransactionId := tx
                              reason := "REGISTRATION_FAILED" }] }) := by
  have hsnap : getCurrentRound e1 = some
      { id := r.id, status := r.status, currentMultiplier := r.currentMultiplier
        serverSeedHash := r.serverSeedHash, clientSeed := r.clientSeed
        nonce := r.nonce, betsCount := r.bets.length, startTime := r.startTime } := by
    simp [getCurrentRound, hr]
  constructor
  · intro outcomes code message rid hdeb
    unfold placeBetService
    rw [if_neg hmin, if_neg hmax, hnobet]
    simp only [Option.isSome_none, Bool.false_eq_true, if_false, hsnap]
    rw [if_neg (by simp [hrs])]
    rw [hdeb]
  · intro outcomes tx newBal rid err hdeb hreg
    unfold placeBetService
    rw [if_neg hmin, if_neg hmax, hnobet]
    simp only [Option.isSome_none, Bool.false_eq_true, if_false, hsnap]
    rw [if_neg (by simp [hrs])]
    rw [hdeb]
    rcases hadd : addBet playerId (roundTo2 amount) sessionId now e2 with ⟨res, e3⟩
    rw [hadd] at hreg
    simp at hreg
    rcases res with msg | b
    · simp at hreg
      subst hreg
      have he3 : e3 = e2 := addBet_error_state hadd
      subst he3
      rfl
    · cases hreg

/-- Witness for C4: a debit failing all three attempts leaves the
engine and activeBets untouched with no rollback (Scenario B), and a
successful debit followed by a duplicate-bet registration failure
issues exactly one rollback against the debit transaction and
propagates the registration error (Scenario C). -/
theorem placeBet_debit_first_ordering_witness :
    (placeBetService "p" "sess" "EUR" "https://platform/cb" 10
        (mkState (mkRound RoundStatus.betting 2 1 [] [])) []
        [AttemptOutcome.netError "t1", AttemptOutcome.netError "t2",
          AttemptOutcome.netError "t3"] 9
        (mkState (mkRound RoundStatus.betting 2 1 [] [])) =
      { result := Except.error (jsOr (some "t3") (some "CALLBACK_FAILED")
          "Bet rejected by platform")
        engine := mkState (mkRound RoundStatus.betting 2 1 [] [])
        activeBets := []
        debitCalled := true
        rollbackCalls := [] }) ∧
    (placeBetService "p" "sess" "EUR" "https://platform/cb" 10
        (mkState (mkRound RoundStatus.betting 2 1 [] [])) []
        [AttemptOutcome.ok { status := some "OK", transactionId := some "TXN-9", newBalance := some 90, code := none, message := none }] 9 bState =
      { result := Except.error "Already placed a bet this round"
        engine := bState
        activeBets := []
        debitCalled := true
        rollbackCalls := [{ roundId := "R-1-1"
                            playerId := "p"
                            sessionId := "sess"
                            amount := roundTo2 10
                            currency := "EUR"
                            originalTransactionId := "TXN-9"
                            reason := "REGISTRATION_FAILED" }] }) := by
  constructor
  · exact (placeBet_debit_first_ordering "p" "sess" "EUR" "https://platform/cb" 10
      (mkState (mkRound RoundStatus.betting 2 1 [] []))
      (mkState (mkRound RoundStatus.betting 2 1 [] [])) [] 9
      (mkRound RoundStatus.betting 2 1 [] []) rfl rfl
      (by norm_num [config.MIN_BET]) (by norm_num [config.MAX_BET]) rfl).1
      [AttemptOutcome.netError "t1", AttemptOutcome.netError "t2",
        AttemptOutcome.netError "t3"]
      (some "CALLBACK_FAILED") (some "t3") "BET-R-1-1-p-9" rfl
  · exact (placeBet_debit_first_ordering "p" "sess" "EUR" "https://platform/cb" 10
      (mkState (mkRound RoundStatus.betting 2 1 [] [])) bState [] 9
      (mkRound RoundStatus.betting 2 1 [] []) rfl rfl
      (by norm_num [config.MIN_BET]) (by norm_num [config.MAX_BET]) rfl).2
      [AttemptOutcome.ok { status := some "OK", transactionId := some "TXN-9", newBalance := some 90, code := none, message := none }]
      "TXN-9" (some 90) "BET-R-1-1-p-9" "Already placed a bet this round" rfl rfl

/-- C5: processCashout locks the cashout in the engine first — the win
callback is issued with exactly the locked-in betAmount, multiplier and
winAmount = floor(betAmount x multiplier x 100) / 100 — and when the
credit callback ultimately fails the cashout is not reversed: the
engine keeps the recorded Cashout (the player counts as cashed out and
cannot cash out again), the activeBets map is left exactly as it was
(the player is not re-added as a live bet), and the result reports the
full cashout detail. -/
theorem cashout_unsettled_on_credit_failure
    (playerId sessionId currency : String) (ab : List (String × ActiveBet))
    (entry : ActiveBet) (e : EngineState) (r : Round) (bet : Bet) (now : Nat)
    (winA : ℚ) (d : CashoutData)
    (hab : mapGet ab playerId = some entry)
    (hnc : hasPlayerCashedOut playerId e = false)
    (hr : e.currentRound = some r) (hrs : r.status = RoundStatus.running)
    (hbet : mapGet r.bets playerId = some bet)
    (hwin : winA = ((⌊bet.amount * r.currentMultiplier * 100⌋ : ℤ) : ℚ) / 100)
    (hd : d = { playerId := playerId, betAmount := bet.amount
                multiplier := r.currentMultiplier, winAmount := winA
                cashedOutAt := now })
    (outcomes : List AttemptOutcome) (code message : Option String)
    (rid : String)
    (hcredit : (callbackCreditWin r.id playerId sessionId bet.amount
      r.currentMultiplier winA currency entry.transactionId now outcomes).fst =
      CallbackResult.failure code message rid) :
    processCashout playerId sessionId currency ab e outcomes now =
      { result := Except.ok (CashoutReturn.unsettled
          (message.orElse fun _ => code) bet.amount r.currentMultiplier winA r.id)
        engine := { e with currentRound := some ({ r with cashedOut := mapSet r.cashedOut playerId d }) }
        activeBets := ab
        creditCalls := [winPayloadOf r.id playerId sessionId bet.amount
          r.currentMultiplier winA currency entry.transactionId now] } ∧
    mapGet (mapSet r.cashedOut playerId d) playerId = some d ∧
    hasPlayerCashedOut playerId { e with currentRound := some ({ r with cashedOut := mapSet r.cashedOut playerId d }) } = true := by
  have hc : mapHas r.cashedOut playerId = false := by
    unfold hasPlayerCashedOut at hnc
    rw [hr] at hnc
    exact hnc
  have hsnap : getCurrentRound e = some
      { id := r.id, status := r.status, currentMultiplier := r.currentMultiplier
        serverSeedHash := r.serverSeedHash, clientSeed := r.clientSeed
        nonce := r.nonce, betsCount := r.bets.length, startTime := r.startTime } := by
    simp [getCurrentRound, hr]
  subst hwin
  subst hd
  refine ⟨?_, mapGet_mapSet_self, ?_⟩
  · unfold processCashout
    rw [hab, hnc]
    simp only [Bool.false_eq_true, if_false, hsnap]
    rw [if_neg (by simp [hrs])]
    rw [cashout_ok hr hrs hbet hc rfl]
    dsimp only
    rw [hcredit]
  · unfold hasPlayerCashedOut
    simp only []
    unfold mapHas
    rw [mapGet_mapSet_self]
    rfl

/-- Witness for C5, Scenario D: a 10.00 stake cashed out at 2.47x gives
winAmount 24.70; after three failed credit attempts the result carries
the full cashout detail, the engine keeps the Cashout and the player
stays exactly as tracked before (not re-added, not live). -/
theorem cashout_unsettled_on_credit_failure_witness :
    processCashout "p" "sess" "EUR" [("p", wActive)] uState
        [AttemptOutcome.netError "t1", AttemptOutcome.netError "t2",
          AttemptOutcome.netError "t3"] 9 =
      { result := Except.ok (CashoutReturn.unsettled
          ((some "t3").orElse fun _ => some "CALLBACK_FAILED") 10 (247 / 100)
          (247 / 10) "R-1-1")
        engine := { uState with currentRound := some ({ uRound with cashedOut := mapSet uRound.cashedOut "p" dCash }) }
        activeBets := [("p", wActive)]
        creditCalls := [winPayloadOf "R-1-1" "p" "sess" 10 (247 / 100)
          (247 / 10) "EUR" "TXN-1" 9] } ∧
    mapGet (mapSet uRound.cashedOut "p" dCash) "p" = some dCash ∧
    hasPlayerCashedOut "p" { uState with currentRound := some ({ uRound with cashedOut := mapSet uRound.cashedOut "p" dCash }) } = true :=
  cashout_unsettled_on_credit_failure "p" "sess" "EUR" [("p", wActive)]
    wActive uState uRound pBet 9 (247 / 10) dCash rfl rfl rfl rfl rfl
    (by norm_num [pBet, uRound, mkRound]) rfl
    [AttemptOutcome.netError "t1", AttemptOutcome.netError "t2",
      AttemptOutcome.netError "t3"]
    (some "CALLBACK_FAILED") (some "t3") "WIN-R-1-1-p-9" rfl

end Crash
